import Mathlib

/-!
Verification of the Possum2 toolchain (65CE02 emulator + two-pass assembler)
against its natural-language specification.

The Rust sources are shallowly embedded: machine integers u8/u16/i32 are
modelled as `Nat`/`Int` with explicit reductions modulo 2^8 / 2^16 where the
source wraps; fallible paths return `Option`/`Except`; the mutable structs
become explicit state passing.
-/

namespace Possum2

/-! ## Memory controller (src/emu/src/sys.rs, `Mem`)

The backing buffer `inner` (65536 × 4 bytes in the source) is modelled as a
total function from buffer index to byte; `bank_select` (a `[usize; 16]`) as a
function from chapter to its selected bank. -/

structure Mem where
  inner : Nat → Nat
  bankSelect : Nat → Nat

namespace Mem

/-- `Mem::read` (sys.rs lines 108-114): chapter is the high nibble, the base
is `chapter * (0x1000 + bank_select[chapter])`, the offset the low 12 bits. -/
def read (m : Mem) (addr : Nat) : Nat :=
  let chapter := (addr &&& 0xF000) >>> 12
  let base := chapter * (0x1000 + m.bankSelect chapter)
  let offset := addr &&& 0x0FFF
  m.inner (base + offset)

/-- `Mem::write` (sys.rs lines 116-122): same index arithmetic as `read`,
storing `data` at the computed buffer index. -/
def write (m : Mem) (addr data : Nat) : Mem :=
  let chapter := (addr &&& 0xF000) >>> 12
  let base := chapter * (0x1000 + m.bankSelect chapter)
  let offset := addr &&& 0x0FFF
  { m with inner := fun i => if i = base + offset then data else m.inner i }

end Mem

/-- The buffer index asserted by the spec sentence behind claim C1
(`effective = bank_select[chapter] × 65536 + chapter × 4096 + (addr mod 4096)`),
written from the spec's words for comparison with the source's arithmetic. -/
def specBankIndex (bs : Nat → Nat) (addr : Nat) : Nat :=
  bs (addr / 4096) * 65536 + (addr / 4096) * 4096 + addr % 4096

/-- The buffer index the source actually computes
(`chapter * (0x1000 + bank_select[chapter]) + offset`). -/
def codeBankIndex (bs : Nat → Nat) (addr : Nat) : Nat :=
  (addr / 4096) * (0x1000 + bs (addr / 4096)) + addr % 4096

/-- Concrete memory used to separate the two formulas: every bank select is 1
and the backing buffer stores each index reduced mod 256. -/
def c1mem : Mem :=
  { inner := fun i => i % 256, bankSelect := fun _ => 1 }

/-! Arithmetic bridge: on 16-bit addresses the source's bit operations agree
with the spec's `div`/`mod` phrasing. -/

theorem and_0fff_eq_mod (a : Nat) : a &&& 0x0FFF = a % 4096 := by
  have := Nat.and_pow_two_sub_one_eq_mod a 12
  norm_num at this
  simpa using this

theorem and_f000_shift_eq_div (a : Nat) (h : a < 65536) :
    (a &&& 0xF000) >>> 12 = a / 4096 := by
  have hdiv : a / 4096 = a >>> 12 := by
    simp [Nat.shiftRight_eq_div_pow]
  rw [hdiv]
  apply Nat.eq_of_testBit_eq
  intro i
  simp only [Nat.testBit_shiftRight, Nat.testBit_and]
  by_cases hi : i < 4
  · interval_cases i <;> simp [Nat.testBit]
  · have hp : (2 : Nat) ^ 16 ≤ 2 ^ (12 + i) :=
      Nat.pow_le_pow_right (by norm_num) (by omega)
    have ha : a < 2 ^ (12 + i) := by
      have h16 : (65536 : Nat) = 2 ^ 16 := by norm_num
      omega
    simp [Nat.testBit_lt_two_pow ha]

/-- C1 (counterexample): with every bank select set to 1 the controller's read
of address 0x1000 returns the buffer byte at index 0x1001
(`chapter * (0x1000 + bank_select) + offset`), not the byte at index
0x11000 (`bank_select * 65536 + chapter * 4096 + offset`) the claim names. -/
theorem c1_counterexample :
    Mem.read c1mem 0x1000 ≠ c1mem.inner (specBankIndex c1mem.bankSelect 0x1000) := by
  decide

/-- C1 (amended): for every 16-bit address and every bank-select vector the
memory controller's read returns the byte of the backing buffer at index
`chapter * (0x1000 + bank_select[chapter]) + (addr mod 4096)` where `chapter`
is the high nibble of the address, and a write with no I/O mapping stores to
that same index. -/
theorem c1_read_write_effective_index (m : Mem) (addr d : Nat) (h : addr < 65536) :
    m.read addr = m.inner (codeBankIndex m.bankSelect addr) ∧
    (m.write addr d).inner (codeBankIndex m.bankSelect addr) = d := by
  have h1 := and_f000_shift_eq_div addr h
  have h2 := and_0fff_eq_mod addr
  constructor
  · simp only [Mem.read, codeBankIndex, h1, h2]
  · simp [Mem.write, codeBankIndex, h1, h2]

/-- C1 (witness): the amended index law evaluated at address 0x1234 on the
concrete memory `c1mem`. -/
theorem c1_read_write_effective_index_witness :
    Mem.read c1mem 0x1234 = c1mem.inner (codeBankIndex c1mem.bankSelect 0x1234) ∧
    (Mem.write c1mem 0x1234 0xAB).inner (codeBankIndex c1mem.bankSelect 0x1234) = 0xAB :=
  c1_read_write_effective_index c1mem 0x1234 0xAB (by decide)

/-! ## CPU (src/emu/src/cpu/mod.rs)

The CPU is generic over a `Bus` trait (`read(addr) -> u8`, `write(addr, u8)`);
the trait is embedded as a record of pure state-passing operations over an
arbitrary bus-state type `σ`.  Registers are `Nat`s carrying byte values; `sp`
and `pc` are kept as (lo, hi) byte pairs exactly as in the source
(`sp: [u8; 2]`, `pc: [u8; 2]`). -/

structure BusOps (σ : Type) where
  read : σ → Nat → Nat × σ
  write : σ → Nat → Nat → σ

/-- A bus read returns a `u8` in the source; the embedding reduces mod 256. -/
def BusOps.read8 {σ : Type} (ops : BusOps σ) (s : σ) (addr : Nat) : Nat × σ :=
  ((ops.read s addr).1 % 256, (ops.read s addr).2)

/-- The canonical pure-memory instance of the bus: a function from address to
byte, with pointwise update as write. -/
def memBus : BusOps (Nat → Nat) where
  read := fun s a => (s a, s)
  write := fun s a d => fun i => if i = a then d else s i

/-- `u16::from_le_bytes([lo, hi])`. -/
def fromLe (lo hi : Nat) : Nat := lo + 256 * hi

namespace Flags

def CARRY : Nat := 1
def ZERO : Nat := 2
def INTERRUPT_DISABLE : Nat := 4
def DECIMAL_MODE : Nat := 8
def BREAK : Nat := 16
def EXTEND_STACK_DISABLE : Nat := 32
def OVERFLOW : Nat := 64
def NEGATIVE : Nat := 128

end Flags

structure Cpu where
  a : Nat
  b : Nat
  x : Nat
  y : Nat
  z : Nat
  p : Nat
  spLo : Nat
  spHi : Nat
  pcLo : Nat
  pcHi : Nat
  irq : Bool
  nmi : Bool
  stackXferWait : Bool

/-- An all-zero CPU state used by concrete witnesses. -/
def cpu0 : Cpu :=
  { a := 0, b := 0, x := 0, y := 0, z := 0, p := 0, spLo := 0, spHi := 1,
    pcLo := 0, pcHi := 0, irq := false, nmi := false, stackXferWait := false }

namespace Cpu

/-- `Cpu::push`: with EXTEND-STACK-DISABLE set only the low SP byte is
decremented (8-bit wrap) and the write goes to the new SP; otherwise the write
goes to `SP - 1` (16-bit wrap) and — exactly as in the source — SP itself is
left unchanged. -/
def push {σ : Type} (ops : BusOps σ) (c : Cpu) (s : σ) (data : Nat) : Cpu × σ :=
  if c.p &&& Flags.EXTEND_STACK_DISABLE ≠ 0 then
    let c' := { c with spLo := (c.spLo + 255) % 256 }
    (c', ops.write s (fromLe c'.spLo c'.spHi) data)
  else
    (c, ops.write s ((fromLe c.spLo c.spHi + 65535) % 65536) data)

/-- `Cpu::pull`: read at SP, then increment SP (low byte only when
EXTEND-STACK-DISABLE is set, full 16-bit otherwise). -/
def pull {σ : Type} (ops : BusOps σ) (c : Cpu) (s : σ) : Nat × Cpu × σ :=
  let addr := fromLe c.spLo c.spHi
  let (data, s) := ops.read8 s addr
  if c.p &&& Flags.EXTEND_STACK_DISABLE ≠ 0 then
    (data, { c with spLo := (c.spLo + 1) % 256 }, s)
  else
    let w := (addr + 1) % 65536
    (data, { c with spLo := w % 256, spHi := w / 256 }, s)

/-- `Cpu::fetch`: read at PC and advance PC with 16-bit wraparound. -/
def fetch {σ : Type} (ops : BusOps σ) (c : Cpu) (s : σ) : Nat × Cpu × σ :=
  let addr := fromLe c.pcLo c.pcHi
  let (data, s) := ops.read8 s addr
  let w := (addr + 1) % 65536
  (data, { c with pcLo := w % 256, pcHi := w / 256 }, s)

/-- `Cpu::set_flag` (`255 - mask` is the u8 complement `!mask`). -/
def setFlag (c : Cpu) (mask : Nat) (value : Bool) : Cpu :=
  if value then { c with p := c.p ||| mask } else { c with p := c.p &&& (255 - mask) }

/-- `Cpu::set_p`: ORs the value into P, masking out BREAK and
EXTEND-STACK-DISABLE (`!(0x10 | 0x20) = 0xCF` on u8). -/
def setP (c : Cpu) (value : Nat) : Cpu :=
  { c with p := c.p ||| (value &&& 0xCF) }

/-- `Cpu::addr_bp`: base-page address, high byte is the B register. -/
def addrBp {σ : Type} (ops : BusOps σ) (c : Cpu) (s : σ) : Nat × Cpu × σ :=
  let (d, c, s) := fetch ops c s
  (fromLe d c.b, c, s)

/-- `Cpu::addr_bp_x`: pointer byte wraps within the base page. -/
def addrBpX {σ : Type} (ops : BusOps σ) (c : Cpu) (s : σ) : Nat × Cpu × σ :=
  let (d, c, s) := fetch ops c s
  (fromLe ((d + c.x) % 256) c.b, c, s)

/-- `Cpu::addr_abs`. -/
def addrAbs {σ : Type} (ops : BusOps σ) (c : Cpu) (s : σ) : Nat × Cpu × σ :=
  let (lo, c, s) := fetch ops c s
  let (hi, c, s) := fetch ops c s
  (fromLe lo hi, c, s)

/-- `Cpu::addr_abs_x`: adds X *and the carry flag* (16-bit wrap). -/
def addrAbsX {σ : Type} (ops : BusOps σ) (c : Cpu) (s : σ) : Nat × Cpu × σ :=
  let (lo, c, s) := fetch ops c s
  let (hi, c, s) := fetch ops c s
  ((fromLe lo hi + c.x + (if c.p &&& Flags.CARRY ≠ 0 then 1 else 0)) % 65536, c, s)

/-- `Cpu::addr_bp_indirect_y` (cpu/mod.rs lines 131-139): fetch a base-page
pointer, read the 16-bit word it holds, then add Y *and the carry flag*. -/
def addrBpIndirectY {σ : Type} (ops : BusOps σ) (c : Cpu) (s : σ) : Nat × Cpu × σ :=
  let (ptr, c, s) := fetch ops c s
  let (lo, s) := ops.read8 s (fromLe ptr c.b)
  let (hi, s) := ops.read8 s (fromLe ((ptr + 1) % 256) c.b)
  ((fromLe lo hi + c.y + (if c.p &&& Flags.CARRY ≠ 0 then 1 else 0)) % 65536, c, s)

/-- `Cpu::addr_bp_indirect_z` (cpu/mod.rs lines 141-147): as `(BP),Y` but adds
Z and no carry. -/
def addrBpIndirectZ {σ : Type} (ops : BusOps σ) (c : Cpu) (s : σ) : Nat × Cpu × σ :=
  let (ptr, c, s) := fetch ops c s
  let (lo, s) := ops.read8 s (fromLe ptr c.b)
  let (hi, s) := ops.read8 s (fromLe ((ptr + 1) % 256) c.b)
  ((fromLe lo hi + c.z) % 65536, c, s)

end Cpu

/-- The pointer word the two `(BP)`-indirect resolvers read from the base
page (shared prefix of `addr_bp_indirect_y` and `addr_bp_indirect_z`). -/
def bpPtrWord {σ : Type} (ops : BusOps σ) (c : Cpu) (s : σ) : Nat :=
  let (ptr, c, s) := Cpu.fetch ops c s
  let (lo, s) := ops.read8 s (fromLe ptr c.b)
  let (hi, _) := ops.read8 s (fromLe ((ptr + 1) % 256) c.b)
  fromLe lo hi

/-- Rust `u8::overflowing_shl`: the shift count is taken mod 8 and overflow is
reported only when the count is ≥ 8 (never for a shift by 1). -/
def overflowingShl8 (v s : Nat) : Nat × Bool :=
  ((v <<< (s % 8)) % 256, 8 ≤ s)

/-- Rust `u8::overflowing_shr`. -/
def overflowingShr8 (v s : Nat) : Nat × Bool :=
  ((v % 256) >>> (s % 8), 8 ≤ s)

/-- Rust `u16::overflowing_shl`. -/
def overflowingShl16 (v s : Nat) : Nat × Bool :=
  ((v <<< (s % 16)) % 65536, 16 ≤ s)

/-- Rust `i8::overflowing_shr` acting on the unsigned byte representation:
an arithmetic shift (`-(x+1) >> k = -((x >> k) + 1)` gives the negative case),
overflow only when the count is ≥ 8. -/
def overflowingAshr8 (v s : Nat) : Nat × Bool :=
  (if v % 256 < 128 then (v % 256) >>> (s % 8)
   else 255 - ((255 - v % 256) >>> (s % 8)), 8 ≤ s)

/-- The claim-relevant arms of the 256-entry opcode dispatch in `Cpu::tick`:
all shift/rotate opcodes (ASL, LSR, ASR, ROL, ROR in every addressing mode,
and the 16-bit ROW/ASW), PLP and RTI.  Each arm is transcribed from the
matching arm of the source's `match self.fetch(bus)`; opcodes whose handlers
are not needed by any claim are left unmodelled (`none`). -/
def execOp {σ : Type} (ops : BusOps σ) (c : Cpu) (s : σ) : Nat → Option (Cpu × σ)
  -- ASL BP (0x06)
  | 0x06 =>
    let (addr, c, s) := Cpu.addrBp ops c s
    let (data, s) := ops.read8 s addr
    let (data, carry) := overflowingShl8 data 1
    let s := ops.write s addr data
    let c := ((c.setFlag Flags.CARRY carry).setFlag Flags.NEGATIVE
      (data &&& 0x80 != 0)).setFlag Flags.ZERO (data == 0)
    some (c, s)
  -- ASL A (0x0A)
  | 0x0A =>
    let (result, carry) := overflowingShl8 c.a 1
    let c := { c with a := result }
    let c := ((c.setFlag Flags.CARRY carry).setFlag Flags.NEGATIVE
      (c.a &&& 0x80 != 0)).setFlag Flags.ZERO (c.a == 0)
    some (c, s)
  -- ASL ABS (0x0E)
  | 0x0E =>
    let (addr, c, s) := Cpu.addrAbs ops c s
    let (data, s) := ops.read8 s addr
    let (data, carry) := overflowingShl8 data 1
    let s := ops.write s addr data
    let c := ((c.setFlag Flags.CARRY carry).setFlag Flags.NEGATIVE
      (data &&& 0x80 != 0)).setFlag Flags.ZERO (data == 0)
    some (c, s)
  -- ASL BP,X (0x16)
  | 0x16 =>
    let (addr, c, s) := Cpu.addrBpX ops c s
    let (data, s) := ops.read8 s addr
    let (data, carry) := overflowingShl8 data 1
    let s := ops.write s addr data
    let c := ((c.setFlag Flags.CARRY carry).setFlag Flags.NEGATIVE
      (data &&& 0x80 != 0)).setFlag Flags.ZERO (data == 0)
    some (c, s)
  -- ASL ABS,X (0x1E)
  | 0x1E =>
    let (addr, c, s) := Cpu.addrAbsX ops c s
    let (data, s) := ops.read8 s addr
    let (data, carry) := overflowingShl8 data 1
    let s := ops.write s addr data
    let c := ((c.setFlag Flags.CARRY carry).setFlag Flags.NEGATIVE
      (data &&& 0x80 != 0)).setFlag Flags.ZERO (data == 0)
    some (c, s)
  -- ROL BP (0x26)
  | 0x26 =>
    let (addr, c, s) := Cpu.addrBp ops c s
    let (data, s) := ops.read8 s addr
    let (result, carry) := overflowingShl8 data 1
    let result := result ||| (c.p &&& Flags.CARRY)
    let s := ops.write s addr result
    let c := ((c.setFlag Flags.CARRY carry).setFlag Flags.NEGATIVE
      (result &&& 0x80 != 0)).setFlag Flags.ZERO (result == 0)
    some (c, s)
  -- PLP (0x28)
  | 0x28 =>
    let (data, c, s) := Cpu.pull ops c s
    some (c.setP data, s)
  -- ROL A (0x2A)
  | 0x2A =>
    let (result, carry) := overflowingShl8 c.a 1
    let c := { c with a := result ||| (c.p &&& Flags.CARRY) }
    let c := ((c.setFlag Flags.CARRY carry).setFlag Flags.NEGATIVE
      (c.a &&& 0x80 != 0)).setFlag Flags.ZERO (c.a == 0)
    some (c, s)
  -- ROL ABS (0x2E)
  | 0x2E =>
    let (addr, c, s) := Cpu.addrAbs ops c s
    let (data, s) := ops.read8 s addr
    let (result, carry) := overflowingShl8 data 1
    let result := result ||| (c.p &&& Flags.CARRY)
    let s := ops.write s addr result
    let c := ((c.setFlag Flags.CARRY carry).setFlag Flags.NEGATIVE
      (result &&& 0x80 != 0)).setFlag Flags.ZERO (result == 0)
    some (c, s)
  -- ROL BP,X (0x36)
  | 0x36 =>
    let (addr, c, s) := Cpu.addrBpX ops c s
    let (data, s) := ops.read8 s addr
    let (result, carry) := overflowingShl8 data 1
    let result := result ||| (c.p &&& Flags.CARRY)
    let s := ops.write s addr result
    let c := ((c.setFlag Flags.CARRY carry).setFlag Flags.NEGATIVE
      (result &&& 0x80 != 0)).setFlag Flags.ZERO (result == 0)
    some (c, s)
  -- ROL ABS,X (0x3E)
  | 0x3E =>
    let (addr, c, s) := Cpu.addrAbsX ops c s
    let (data, s) := ops.read8 s addr
    let (result, carry) := overflowingShl8 data 1
    let result := result ||| (c.p &&& Flags.CARRY)
    let s := ops.write s addr result
    let c := ((c.setFlag Flags.CARRY carry).setFlag Flags.NEGATIVE
      (result &&& 0x80 != 0)).setFlag Flags.ZERO (result == 0)
    some (c, s)
  -- RTI (0x40)
  | 0x40 =>
    let (data, c, s) := Cpu.pull ops c s
    let c := c.setP data
    let (lo, c, s) := Cpu.pull ops c s
    let (hi, c, s) := Cpu.pull ops c s
    some ({ c with pcLo := lo, pcHi := hi }, s)
  -- ASR A (0x43)
  | 0x43 =>
    let (result, carry) := overflowingAshr8 c.a 1
    let c := { c with a := result }
    let c := ((c.setFlag Flags.CARRY carry).setFlag Flags.NEGATIVE
      (c.a &&& 0x80 != 0)).setFlag Flags.ZERO (c.a == 0)
    some (c, s)
  -- ASR BP (0x44)
  | 0x44 =>
    let (addr, c, s) := Cpu.addrBp ops c s
    let (data, s) := ops.read8 s addr
    let (data, carry) := overflowingAshr8 data 1
    let s := ops.write s addr data
    let c := ((c.setFlag Flags.CARRY carry).setFlag Flags.NEGATIVE
      (data &&& 0x80 != 0)).setFlag Flags.ZERO (data == 0)
    some (c, s)
  -- LSR BP (0x46)
  | 0x46 =>
    let (addr, c, s) := Cpu.addrBp ops c s
    let (data, s) := ops.read8 s addr
    let (data, carry) := overflowingShr8 data 1
    let s := ops.write s addr data
    let c := ((c.setFlag Flags.CARRY carry).setFlag Flags.NEGATIVE
      (data &&& 0x80 != 0)).setFlag Flags.ZERO (data == 0)
    some (c, s)
  -- LSR A (0x4A)
  | 0x4A =>
    let (result, carry) := overflowingShr8 c.a 1
    let c := { c with a := result }
    let c := ((c.setFlag Flags.CARRY carry).setFlag Flags.NEGATIVE
      (c.a &&& 0x80 != 0)).setFlag Flags.ZERO (c.a == 0)
    some (c, s)
  -- LSR ABS (0x4E)
  | 0x4E =>
    let (addr, c, s) := Cpu.addrAbs ops c s
    let (data, s) := ops.read8 s addr
    let (data, carry) := overflowingShr8 data 1
    let s := ops.write s addr data
    let c := ((c.setFlag Flags.CARRY carry).setFlag Flags.NEGATIVE
      (data &&& 0x80 != 0)).setFlag Flags.ZERO (data == 0)
    some (c, s)
  -- ASR BP,X (0x54)
  | 0x54 =>
    let (addr, c, s) := Cpu.addrBpX ops c s
    let (data, s) := ops.read8 s addr
    let (data, carry) := overflowingAshr8 data 1
    let s := ops.write s addr data
    let c := ((c.setFlag Flags.CARRY carry).setFlag Flags.NEGATIVE
      (data &&& 0x80 != 0)).setFlag Flags.ZERO (data == 0)
    some (c, s)
  -- LSR BP,X (0x56)
  | 0x56 =>
    let (addr, c, s) := Cpu.addrBpX ops c s
    let (data, s) := ops.read8 s addr
    let (data, carry) := overflowingShr8 data 1
    let s := ops.write s addr data
    let c := ((c.setFlag Flags.CARRY carry).setFlag Flags.NEGATIVE
      (data &&& 0x80 != 0)).setFlag Flags.ZERO (data == 0)
    some (c, s)
  -- LSR ABS,X (0x5E)
  | 0x5E =>
    let (addr, c, s) := Cpu.addrAbsX ops c s
    let (data, s) := ops.read8 s addr
    let (data, carry) := overflowingShr8 data 1
    let s := ops.write s addr data
    let c := ((c.setFlag Flags.CARRY carry).setFlag Flags.NEGATIVE
      (data &&& 0x80 != 0)).setFlag Flags.ZERO (data == 0)
    some (c, s)
  -- ROR BP (0x66)
  | 0x66 =>
    let (addr, c, s) := Cpu.addrBp ops c s
    let (data, s) := ops.read8 s addr
    let (result, carry) := overflowingShr8 data 1
    let result := result ||| ((c.p &&& Flags.CARRY) <<< 7)
    let s := ops.write s addr result
    let c := ((c.setFlag Flags.CARRY carry).setFlag Flags.NEGATIVE
      (result &&& 0x80 != 0)).setFlag Flags.ZERO (result == 0)
    some (c, s)
  -- ROR A (0x6A)
  | 0x6A =>
    let (result, carry) := overflowingShr8 c.a 1
    let c := { c with a := result ||| ((c.p &&& Flags.CARRY) <<< 7) }
    let c := ((c.setFlag Flags.CARRY carry).setFlag Flags.NEGATIVE
      (c.a &&& 0x80 != 0)).setFlag Flags.ZERO (c.a == 0)
    some (c, s)
  -- ROR ABS (0x6E)
  | 0x6E =>
    let (addr, c, s) := Cpu.addrAbs ops c s
    let (data, s) := ops.read8 s addr
    let (result, carry) := overflowingShr8 data 1
    let result := result ||| ((c.p &&& Flags.CARRY) <<< 7)
    let s := ops.write s addr result
    let c := ((c.setFlag Flags.CARRY carry).setFlag Flags.NEGATIVE
      (result &&& 0x80 != 0)).setFlag Flags.ZERO (result == 0)
    some (c, s)
  -- ROR BP,X (0x76)
  | 0x76 =>
    let (addr, c, s) := Cpu.addrBpX ops c s
    let (data, s) := ops.read8 s addr
    let (result, carry) := overflowingShr8 data 1
    let result := result ||| ((c.p &&& Flags.CARRY) <<< 7)
    let s := ops.write s addr result
    let c := ((c.setFlag Flags.CARRY carry).setFlag Flags.NEGATIVE
      (result &&& 0x80 != 0)).setFlag Flags.ZERO (result == 0)
    some (c, s)
  -- ROR ABS,X (0x7E)
  | 0x7E =>
    let (addr, c, s) := Cpu.addrAbsX ops c s
    let (data, s) := ops.read8 s addr
    let (result, carry) := overflowingShr8 data 1
    let result := result ||| ((c.p &&& Flags.CARRY) <<< 7)
    let s := ops.write s addr result
    let c := ((c.setFlag Flags.CARRY carry).setFlag Flags.NEGATIVE
      (result &&& 0x80 != 0)).setFlag Flags.ZERO (result == 0)
    some (c, s)
  -- ASW ABS (0xCB) — the handler resolves its address through `addr_bp`,
  -- exactly as the source does
  | 0xCB =>
    let (addr, c, s) := Cpu.addrBp ops c s
    let (lo, s) := ops.read8 s addr
    let (hi, s) := ops.read8 s ((addr + 1) % 65536)
    let (result, carry) := overflowingShl16 (fromLe lo hi) 1
    let s := ops.write s addr (result % 256)
    let s := ops.write s ((addr + 1) % 65536) (result / 256)
    let c := ((c.setFlag Flags.CARRY carry).setFlag Flags.NEGATIVE
      (result &&& 0x8000 != 0)).setFlag Flags.ZERO (result == 0)
    some (c, s)
  -- ROW (0xEB)
  | 0xEB =>
    let (addr, c, s) := Cpu.addrBp ops c s
    let (lo, s) := ops.read8 s addr
    let (hi, s) := ops.read8 s ((addr + 1) % 65536)
    let (result, carry) := overflowingShl16 (fromLe lo hi) 1
    let s := ops.write s addr (result % 256)
    let s := ops.write s ((addr + 1) % 65536) (result / 256)
    let c := ((c.setFlag Flags.CARRY carry).setFlag Flags.NEGATIVE
      (result &&& 0x8000 != 0)).setFlag Flags.ZERO (result == 0)
    some (c, s)
  | _ => none

/-- `Cpu::tick` (cpu/mod.rs lines 238-273): unless the stack-transfer wait bit
is set, a pending NMI — and otherwise a pending IRQ with INTERRUPT-DISABLE
clear — is serviced instead of fetching an opcode; the dispatch on the fetched
opcode byte is abstracted by the `exec` argument. -/
def Cpu.tick {σ : Type} (ops : BusOps σ)
    (exec : BusOps σ → Cpu → σ → Nat → Option (Cpu × σ))
    (c : Cpu) (s : σ) : Option (Cpu × σ) :=
  if !c.stackXferWait && c.nmi then
    let c := { c with nmi := false }
    let (c, s) := Cpu.push ops c s c.pcHi
    let (c, s) := Cpu.push ops c s c.pcLo
    let (c, s) := Cpu.push ops c s c.p
    let c := { c with p := (c.p &&& (255 - Flags.DECIMAL_MODE)) ||| Flags.INTERRUPT_DISABLE }
    let (lo, s) := ops.read8 s 0xFFFA
    let (hi, s) := ops.read8 s 0xFFFB
    some ({ c with pcLo := lo, pcHi := hi }, s)
  else if !c.stackXferWait && (c.irq && (c.p &&& Flags.INTERRUPT_DISABLE == 0)) then
    let c := { c with irq := false }
    let (c, s) := Cpu.push ops c s c.pcHi
    let (c, s) := Cpu.push ops c s c.pcLo
    let (c, s) := Cpu.push ops c s c.p
    let c := { c with p := (c.p &&& (255 - Flags.DECIMAL_MODE)) ||| Flags.INTERRUPT_DISABLE }
    let (lo, s) := ops.read8 s 0xFFFE
    let (hi, s) := ops.read8 s 0xFFFF
    some ({ c with pcLo := lo, pcHi := hi }, s)
  else
    let c := { c with stackXferWait := false }
    let (op, c, s) := Cpu.fetch ops c s
    exec ops c s op

/-- C9: the `(BP),Y` resolver adds the CARRY flag into the effective address
on top of Y (pointer word from the base page, plus Y, plus 1 when CARRY is
set), while the `(BP),Z` resolver adds only Z and no carry. -/
theorem c9_bp_indirect_y_adds_carry {σ : Type} (ops : BusOps σ) (c : Cpu) (s : σ) :
    (Cpu.addrBpIndirectY ops c s).1 =
      (bpPtrWord ops c s + c.y + (if c.p &&& Flags.CARRY ≠ 0 then 1 else 0)) % 65536 ∧
    (Cpu.addrBpIndirectZ ops c s).1 = (bpPtrWord ops c s + c.z) % 65536 :=
  ⟨rfl, rfl⟩

/-! Projection laws for `pull` and `push`: both leave the register file and
the flag byte alone (only SP and the bus move), whichever stack mode is in
force. -/

theorem pull_p {σ : Type} (ops : BusOps σ) (c : Cpu) (s : σ) :
    (Cpu.pull ops c s).2.1.p = c.p := by
  unfold Cpu.pull; dsimp only; split <;> rfl

theorem pull_data {σ : Type} (ops : BusOps σ) (c : Cpu) (s : σ) :
    (Cpu.pull ops c s).1 = (ops.read s (fromLe c.spLo c.spHi)).1 % 256 := by
  unfold Cpu.pull; dsimp only; split <;> rfl

theorem setP_p (c : Cpu) (v : Nat) : (c.setP v).p = c.p ||| (v &&& 0xCF) := rfl

/-- Equation lemma for the PLP arm of the dispatch, with the pull spelled via
projections. -/
theorem execOp_plp_eq {σ : Type} (ops : BusOps σ) (c : Cpu) (s : σ) :
    execOp ops c s 0x28 =
      some ((Cpu.pull ops c s).2.1.setP (Cpu.pull ops c s).1, (Cpu.pull ops c s).2.2) := rfl

/-- Equation lemma for the RTI arm of the dispatch, with the three pulls
spelled via projections. -/
theorem execOp_rti_eq {σ : Type} (ops : BusOps σ) (c : Cpu) (s : σ) :
    execOp ops c s 0x40 =
      (let t1 := Cpu.pull ops c s
       let c1 := t1.2.1.setP t1.1
       let t2 := Cpu.pull ops c1 t1.2.2
       let t3 := Cpu.pull ops t2.2.1 t2.2.2
       some ({ t3.2.1 with pcLo := t2.1, pcHi := t3.1 }, t3.2.2)) := rfl

/-- C10: `set_p` ORs the pulled value into P (masking BREAK and
EXTEND-STACK-DISABLE out of the value), so PLP and RTI can only set flag
bits: every bit set in P before the instruction stays set, and bits 4
(BREAK) and 5 (EXTEND-STACK-DISABLE) are never written at all. -/
theorem c10_plp_rti_only_set_flags {σ : Type} (ops : BusOps σ) (c : Cpu) (s : σ)
    (i : Nat) (hset : c.p.testBit i = true) :
    ∃ r1 r2 : Cpu × σ,
      execOp ops c s 0x28 = some r1 ∧ execOp ops c s 0x40 = some r2 ∧
      r1.1.p.testBit i = true ∧ r2.1.p.testBit i = true ∧
      r1.1.p.testBit 4 = c.p.testBit 4 ∧ r1.1.p.testBit 5 = c.p.testBit 5 ∧
      r2.1.p.testBit 4 = c.p.testBit 4 ∧ r2.1.p.testBit 5 = c.p.testBit 5 := by
  rw [execOp_plp_eq, execOp_rti_eq]
  refine ⟨_, _, rfl, rfl, ?_, ?_, ?_, ?_, ?_, ?_⟩ <;>
    simp only [pull_p, setP_p, Nat.testBit_or, Nat.testBit_and, hset,
      show Nat.testBit 0xCF 4 = false from rfl, show Nat.testBit 0xCF 5 = false from rfl,
      Bool.and_false, Bool.or_false, Bool.true_or]

theorem or_and_eq_zero_bit (x m k : Nat) (h : m &&& k = 0) : (x ||| m) &&& k = x &&& k := by
  rw [Nat.and_distrib_right, h, Nat.or_zero]

theorem push_p {σ : Type} (ops : BusOps σ) (c : Cpu) (s : σ) (d : Nat) :
    (Cpu.push ops c s d).1.p = c.p := by
  unfold Cpu.push; dsimp only; split <;> rfl

theorem push_pcLo {σ : Type} (ops : BusOps σ) (c : Cpu) (s : σ) (d : Nat) :
    (Cpu.push ops c s d).1.pcLo = c.pcLo := by
  unfold Cpu.push; dsimp only; split <;> rfl

theorem push_pcHi {σ : Type} (ops : BusOps σ) (c : Cpu) (s : σ) (d : Nat) :
    (Cpu.push ops c s d).1.pcHi = c.pcHi := by
  unfold Cpu.push; dsimp only; split <;> rfl

theorem push_irq {σ : Type} (ops : BusOps σ) (c : Cpu) (s : σ) (d : Nat) :
    (Cpu.push ops c s d).1.irq = c.irq := by
  unfold Cpu.push; dsimp only; split <;> rfl

theorem setFlag_true_p (c : Cpu) (m : Nat) : (c.setFlag m true).p = c.p ||| m := rfl

theorem setFlag_false_p (c : Cpu) (m : Nat) : (c.setFlag m false).p = c.p &&& (255 - m) := rfl

/-- After `set_flag(CARRY, false)` the CARRY bit stays clear through the
subsequent NEGATIVE and ZERO updates, whatever their values. -/
theorem setFlag_nz_preserves_carry_clear (c : Cpu) (n z : Bool) :
    (((c.setFlag Flags.CARRY false).setFlag Flags.NEGATIVE n).setFlag Flags.ZERO z).p
      &&& Flags.CARRY = 0 := by
  cases n <;> cases z <;>
    simp [setFlag_false_p, setFlag_true_p, Flags.CARRY, Flags.NEGATIVE, Flags.ZERO,
      Nat.and_assoc, or_and_eq_zero_bit, -Nat.and_one_is_mod,
      show (253 &&& 1 : Nat) = 1 from rfl, show (127 &&& 1 : Nat) = 1 from rfl,
      show (254 &&& 1 : Nat) = 0 from rfl, show (2 &&& 1 : Nat) = 0 from rfl,
      show (128 &&& 1 : Nat) = 0 from rfl, show (254 &&& 127 : Nat) = 126 from rfl,
      show (126 &&& 1 : Nat) = 0 from rfl]

/-- The opcode bytes of every shift and rotate instruction: ASL, ROL, ASR,
LSR, ROR in each of their addressing modes, plus the 16-bit ASW and ROW. -/
def shiftRotateOpcodes : List Nat :=
  [0x06, 0x0A, 0x0E, 0x16, 0x1E,
   0x26, 0x2A, 0x2E, 0x36, 0x3E,
   0x43, 0x44, 0x54,
   0x46, 0x4A, 0x4E, 0x56, 0x5E,
   0x66, 0x6A, 0x6E, 0x76, 0x7E,
   0xCB, 0xEB]

/-- C8: every shift/rotate instruction leaves CARRY cleared: the carry is
taken from Rust's overflowing shift by 1, which never reports overflow for a
count below the bit width, so the shifted-out bit never reaches the flag. -/
theorem c8_shift_rotate_clears_carry {σ : Type} (ops : BusOps σ) (c : Cpu) (s : σ)
    (op : Nat) (hop : op ∈ shiftRotateOpcodes) :
    ∃ r : Cpu × σ, execOp ops c s op = some r ∧ r.1.p &&& Flags.CARRY = 0 := by
  fin_cases hop <;> exact ⟨_, rfl, setFlag_nz_preserves_carry_clear _ _ _⟩

/-- C8 (witness): ASL A (0x0A) on the pure-memory bus from the all-zero state
ends with CARRY clear. -/
theorem c8_shift_rotate_clears_carry_witness :
    ∃ r : Cpu × (Nat → Nat), execOp memBus cpu0 (fun _ => 0) 0x0A = some r ∧
      r.1.p &&& Flags.CARRY = 0 :=
  c8_shift_rotate_clears_carry memBus cpu0 (fun _ => 0) 0x0A (by decide)

set_option maxRecDepth 8192 in
/-- C3 (counterexample): from a pending-IRQ state whose BREAK bit is clear
(and stack-transfer wait clear, no NMI, INTERRUPT-DISABLE clear), one tick
leaves BREAK clear — the IRQ path does not set BREAK, refuting the claim that
it does.  The dispatch argument is never consulted. -/
theorem c3_counterexample :
    (Cpu.tick memBus (fun _ _ _ _ => none) { cpu0 with irq := true } (fun _ => 0)).map
      (fun r => r.1.p &&& Flags.BREAK) = some 0 := by
  rfl

set_option maxRecDepth 8192 in
/-- The P update of the interrupt paths (`(p & !DECIMAL_MODE) | ID` on
bytes): DECIMAL ends clear, INTERRUPT-DISABLE ends set, BREAK is preserved. -/
theorem hbits_irq_p : ∀ x : Nat, x < 256 →
    ((x &&& 247) ||| 4) &&& 8 = 0 ∧ ((x &&& 247) ||| 4) &&& 4 = 4 ∧
    ((x &&& 247) ||| 4) &&& 16 = x &&& 16 := by decide

/-- C3 (amended): with the stack-transfer wait bit clear, an IRQ pending, no
NMI pending, and INTERRUPT-DISABLE clear, one tick pushes PC-high, then
PC-low, then P (through the CPU's own push operation), clears DECIMAL-MODE,
sets INTERRUPT-DISABLE, leaves BREAK unchanged, and loads PC little-endian
from 0xFFFE/0xFFFF; no opcode is fetched (the conclusion holds for every
dispatch function `exec`, and the bus sees only the three pushes and the two
vector reads). -/
theorem c3_irq_tick {σ : Type} (ops : BusOps σ)
    (exec : BusOps σ → Cpu → σ → Nat → Option (Cpu × σ)) (c : Cpu) (s : σ)
    (hw : c.stackXferWait = false) (hirq : c.irq = true) (hnmi : c.nmi = false)
    (hid : c.p &&& Flags.INTERRUPT_DISABLE = 0) (hp : c.p < 256) :
    ∃ (c' : Cpu) (s' : σ),
      Cpu.tick ops exec c s = some (c', s') ∧
      (let r1 := Cpu.push ops { c with irq := false } s c.pcHi
       let r2 := Cpu.push ops r1.1 r1.2 c.pcLo
       let r3 := Cpu.push ops r2.1 r2.2 c.p
       let v1 := ops.read r3.2 0xFFFE
       let v2 := ops.read v1.2 0xFFFF
       s' = v2.2 ∧ c'.pcLo = v1.1 % 256 ∧ c'.pcHi = v2.1 % 256) ∧
      c'.p &&& Flags.DECIMAL_MODE = 0 ∧
      c'.p &&& Flags.INTERRUPT_DISABLE = Flags.INTERRUPT_DISABLE ∧
      c'.p &&& Flags.BREAK = c.p &&& Flags.BREAK ∧
      c'.irq = false := by
  have hcond1 : (!c.stackXferWait && c.nmi) = false := by rw [hw, hnmi]; rfl
  have hcond2 :
      (!c.stackXferWait && (c.irq && (c.p &&& Flags.INTERRUPT_DISABLE == 0))) = true := by
    rw [hw, hirq, hid]; rfl
  unfold Cpu.tick
  rw [hcond1, hcond2]
  simp only [Bool.false_eq_true, if_false, if_true]
  refine ⟨_, _, rfl, ⟨?_, ?_, ?_⟩, ?_, ?_, ?_, ?_⟩ <;>
    simp only [push_p, push_pcLo, push_pcHi, push_irq, BusOps.read8,
      Flags.DECIMAL_MODE, Flags.INTERRUPT_DISABLE, Flags.BREAK,
      show (255 - 8 : Nat) = 247 from rfl]
  · exact (hbits_irq_p c.p hp).1
  · exact (hbits_irq_p c.p hp).2.1
  · exact (hbits_irq_p c.p hp).2.2

/-- C3 (witness): the amended IRQ-tick law evaluated on the pure-memory bus
from the all-zero state with an IRQ pending. -/
theorem c3_irq_tick_witness :
    ∃ (c' : Cpu) (s' : Nat → Nat),
      Cpu.tick memBus (fun _ _ _ _ => none) { cpu0 with irq := true } (fun _ => 0) =
        some (c', s') ∧
      (let r1 := Cpu.push memBus { { cpu0 with irq := true } with irq := false }
        (fun _ => 0) { cpu0 with irq := true }.pcHi
       let r2 := Cpu.push memBus r1.1 r1.2 { cpu0 with irq := true }.pcLo
       let r3 := Cpu.push memBus r2.1 r2.2 { cpu0 with irq := true }.p
       let v1 := memBus.read r3.2 0xFFFE
       let v2 := memBus.read v1.2 0xFFFF
       s' = v2.2 ∧ c'.pcLo = v1.1 % 256 ∧ c'.pcHi = v2.1 % 256) ∧
      c'.p &&& Flags.DECIMAL_MODE = 0 ∧
      c'.p &&& Flags.INTERRUPT_DISABLE = Flags.INTERRUPT_DISABLE ∧
      c'.p &&& Flags.BREAK = { cpu0 with irq := true }.p &&& Flags.BREAK ∧
      c'.irq = false :=
  c3_irq_tick memBus (fun _ _ _ _ => none) { cpu0 with irq := true } (fun _ => 0)
    rfl rfl rfl (by decide) (by decide)

/-- C10 (witness): the monotonicity law evaluated on the pure-memory bus at a
state with P = 0x0F and bit 0 set. -/
theorem c10_plp_rti_only_set_flags_witness :
    ∃ r1 r2 : Cpu × (Nat → Nat),
      execOp memBus { cpu0 with p := 0x0F } (fun _ => 0) 0x28 = some r1 ∧
      execOp memBus { cpu0 with p := 0x0F } (fun _ => 0) 0x40 = some r2 ∧
      r1.1.p.testBit 0 = true ∧ r2.1.p.testBit 0 = true ∧
      r1.1.p.testBit 4 = Nat.testBit 0x0F 4 ∧ r1.1.p.testBit 5 = Nat.testBit 0x0F 5 ∧
      r2.1.p.testBit 4 = Nat.testBit 0x0F 4 ∧ r2.1.p.testBit 5 = Nat.testBit 0x0F 5 :=
  c10_plp_rti_only_set_flags memBus { cpu0 with p := 0x0F } (fun _ => 0) 0 (by decide)

/-! ## FDC (src/emu/src/fdc.rs)

The controller state machine.  The backing disk image (`handle`) is touched
only by the ReadSector/WriteSector arms, which no claim needs; those arms and
the `todo!()`/`unimplemented!()` arms of the source are left unmodelled
(`none`).  u8 counters wrap mod 256 as in release-mode Rust. -/

inductive FdcState where
  | idle
  | restore
  | seek
  | step
  | readSector
  | writeSector
  | readAddress
  | readTrack
  | writeTrack
deriving DecidableEq

namespace FdcStatus

def BUSY : Nat := 1
def DATA_REQUEST : Nat := 2
def TRACK_0 : Nat := 4
def HEAD_LOADED : Nat := 32

end FdcStatus

structure Fdc where
  state : FdcState
  status : Nat
  command : Nat
  track : Nat
  sector : Nat
  data : Nat
  buf : List Nat
  trackLatch : Nat
  trackTarget : Nat
  sectorCount : Nat
  irq : Bool

/-- `Fdc::new`. -/
def fdcNew : Fdc :=
  { state := .idle, status := 0, command := 0, track := 0, sector := 0, data := 0,
    buf := [], trackLatch := 0, trackTarget := 0, sectorCount := 0, irq := false }

namespace Fdc

/-- `Fdc::tick` (fdc.rs lines 129-240) for the arms that do not touch the
backing image: Idle, Restore, Seek (lines 145-159) and Step.  In the Seek arm
the source *decrements* the track when Data is greater than it and
*increments* when Data is less. -/
def tick (f : Fdc) : Option Fdc :=
  match f.state with
  | .idle => some f
  | .restore =>
    if f.track > 0 then
      let track := f.track - 1
      some { f with track := track, trackLatch := track }
    else
      some { f with state := .idle, status := (f.status &&& (255 - FdcStatus.BUSY)) |||
        FdcStatus.TRACK_0, irq := true }
  | .seek =>
    let f :=
      if f.data > f.track then
        let track := (f.track + 255) % 256
        { f with track := track, trackLatch := track }
      else if f.data < f.track then
        let track := (f.track + 1) % 256
        { f with track := track, trackLatch := track }
      else
        { f with status := f.status &&& (255 - FdcStatus.BUSY), irq := true }
    if f.track = 0 then some { f with status := f.status ||| FdcStatus.TRACK_0 }
    else some f
  | .step =>
    let f := { f with
               state := .idle,
               status := f.status &&& (255 - FdcStatus.BUSY),
               irq := true }
    let f :=
      if f.track < f.trackTarget then { f with track := (f.track + 1) % 256 }
      else if f.track > f.trackTarget then { f with track := (f.track + 255) % 256 }
      else f
    let f := if f.command &&& 16 ≠ 0 then { f with trackLatch := f.track } else f
    if f.track = 0 then some { f with status := f.status ||| FdcStatus.TRACK_0 }
    else some f
  | _ => none

/-- `Fdc::read` (register file; reading Data clears DATA-REQUEST). -/
def read (f : Fdc) (addr : Nat) : Option (Nat × Fdc) :=
  match addr with
  | 0 => some (f.status, f)
  | 1 => some (f.trackLatch, f)
  | 2 => some (f.sector, f)
  | 3 => some (f.data, { f with status := f.status &&& (255 - FdcStatus.DATA_REQUEST) })
  | _ => none

/-- `Fdc::write` (fdc.rs lines 255-374).  Register 0 dispatches on the top
three command bits; commands 0 (Restore/Seek, lines 259-272) through 5 are
transcribed, commands 6/7 are `todo!()` in the source (`none` here), as are
the sector/track mismatch paths. -/
def write (f : Fdc) (addr data : Nat) : Option Fdc :=
  match addr with
  | 0 =>
    let f := { f with command := data }
    match (data &&& 0b11100000) >>> 5 with
    | 0 =>
      let f :=
        if data &&& 0b00010000 = 0 then { f with state := .restore }
        else { f with state := .seek }
      let f := { f with status := f.status ||| FdcStatus.BUSY }
      if data &&& 8 ≠ 0 then some { f with status := f.status ||| FdcStatus.HEAD_LOADED }
      else some { f with status := f.status &&& (255 - FdcStatus.HEAD_LOADED) }
    | 1 =>
      let f := { f with state := .step, status := f.status ||| FdcStatus.BUSY }
      let target := f.data
      let target := if target > 79 then 79 else target
      let f := { f with trackTarget := target }
      if data &&& 8 ≠ 0 then some { f with status := f.status ||| FdcStatus.HEAD_LOADED }
      else some { f with status := f.status &&& (255 - FdcStatus.HEAD_LOADED) }
    | 2 =>
      let f := { f with state := .step, status := f.status ||| FdcStatus.BUSY }
      let target := if f.track < 8 then f.track + 1 else f.track
      let f := { f with trackTarget := target }
      if data &&& 8 ≠ 0 then some { f with status := f.status ||| FdcStatus.HEAD_LOADED }
      else some { f with status := f.status &&& (255 - FdcStatus.HEAD_LOADED) }
    | 3 =>
      let f := { f with state := .step, status := f.status ||| FdcStatus.BUSY }
      let target := if f.track > 0 then f.track - 1 else f.track
      let f := { f with trackTarget := target }
      if data &&& 8 ≠ 0 then some { f with status := f.status ||| FdcStatus.HEAD_LOADED }
      else some { f with status := f.status &&& (255 - FdcStatus.HEAD_LOADED) }
    | 4 =>
      let f := { f with
                 state := .readSector,
                 status := f.status ||| FdcStatus.BUSY ||| FdcStatus.HEAD_LOADED,
                 buf := [] }
      if f.trackLatch ≠ f.track then none
      else if data &&& 16 ≠ 0 then some { f with sectorCount := 9 - f.sector }
      else some { f with sectorCount := 1 }
    | 5 =>
      let f := { f with
                 state := .writeSector,
                 status := f.status ||| FdcStatus.BUSY ||| FdcStatus.HEAD_LOADED,
                 buf := [] }
      if f.trackLatch ≠ f.track then none
      else if data &&& 16 ≠ 0 then some { f with sectorCount := 9 - f.sector }
      else some { f with sectorCount := 1 }
    | _ => none
  | 1 => some { f with trackLatch := data }
  | 2 => if data > 8 then none else some { f with sector := data }
  | 3 =>
    let f :=
      if f.state = .writeSector ∧ f.status &&& FdcStatus.DATA_REQUEST ≠ 0 then
        { f with buf := f.buf ++ [data] }
      else f
    some { f with status := f.status &&& (255 - FdcStatus.DATA_REQUEST), data := data }
  | _ => none

end Fdc

/-- A controller in the middle of a Seek toward track 5 with the head on
track 3 (BUSY set, as the Seek command leaves it). -/
def c7fdc : Fdc :=
  { fdcNew with
    state := .seek, status := FdcStatus.BUSY, command := 0x10,
    track := 3, trackLatch := 3, data := 5 }

/-- C7 (code bug): with Data = 5 and track = 3 the Seek arm *decrements* the
track to 2, stepping away from the target — the source's comparisons are
reversed relative to the Step arm and to the claim (which expects track 4).
Writing the Seek command byte first makes no difference. -/
theorem c7_seek_wrong_direction :
    (Fdc.tick c7fdc).map Fdc.track = some 2 ∧
    ((Fdc.write c7fdc 0 0x10).bind Fdc.tick).map Fdc.track = some 2 := by
  constructor <;> rfl

/-! ## CPU-side system bus (src/emu/src/sys.rs, `CpuView`)

The `CpuView` borrows every device plus the memory; embedded as a record. -/

namespace UartStatus

def PARITY_ERROR : Nat := 1
def FRAMING_ERROR : Nat := 2
def OVERRUN : Nat := 4
def RX_DATA_REGISTER_FULL : Nat := 8
def TX_DATA_REGISTER_EMPTY : Nat := 16
def INTERRUPT : Nat := 128

end UartStatus

structure Uart where
  status : Nat
  control : Nat
  command : Nat
  tx : Option Nat
  rx : Option Nat
  irqFlag : Bool

/-- `Uart::new`. -/
def uartNew : Uart :=
  { status := 0, control := 0, command := 0, tx := none, rx := none, irqFlag := false }

namespace Uart

/-- `Uart::read` (uart.rs): reading Data clears RX-FULL and the error bits,
reading Status clears INTERRUPT. -/
def read (u : Uart) (addr : Nat) : Option (Nat × Uart) :=
  match addr with
  | 0 => some (u.rx.getD 0,
      { u with
        status := u.status &&& (255 - (UartStatus.RX_DATA_REGISTER_FULL |||
          UartStatus.PARITY_ERROR ||| UartStatus.FRAMING_ERROR ||| UartStatus.OVERRUN)),
        rx := none })
  | 1 => some (u.status, { u with status := u.status &&& (255 - UartStatus.INTERRUPT) })
  | 2 => some (u.command, u)
  | 3 => some (u.control, u)
  | _ => none

/-- `Uart::write`: writing Status is a soft reset. -/
def write (u : Uart) (addr data : Nat) : Option Uart :=
  match addr with
  | 0 => some { u with
      status := u.status &&& (255 - UartStatus.TX_DATA_REGISTER_EMPTY),
      tx := some data }
  | 1 => some { u with
      tx := none, rx := none, command := 2,
      status := UartStatus.TX_DATA_REGISTER_EMPTY }
  | 2 => some { u with command := data }
  | 3 => some { u with control := data }
  | _ => none

end Uart

structure SysBus where
  ser0 : Uart
  ser1 : Uart
  fdc0 : Fdc
  fdc1 : Fdc
  irqLatch : Nat
  mem : Mem

namespace CpuView

/-- `CpuView::read` (sys.rs lines 285-302): bank-select registers, devices,
the interrupt latch (read clears it), and otherwise banked memory.  The
`todo!()` I/O holes are `none`; addresses 0xF018-0xF023 fall through to
memory exactly as in the source's `_` arm. -/
def read (v : SysBus) (addr : Nat) : Option (Nat × SysBus) :=
  if 0xF000 ≤ addr ∧ addr ≤ 0xF00E then some (v.mem.bankSelect (addr - 0xF000) % 256, v)
  else if addr = 0xF00F then some (0, v)
  else if 0xF010 ≤ addr ∧ addr ≤ 0xF013 then
    (v.ser0.read (addr - 0xF010)).map (fun r => (r.1, { v with ser0 := r.2 }))
  else if 0xF014 ≤ addr ∧ addr ≤ 0xF017 then
    (v.ser1.read (addr - 0xF014)).map (fun r => (r.1, { v with ser1 := r.2 }))
  else if 0xF024 ≤ addr ∧ addr ≤ 0xF029 then none
  else if 0xF030 ≤ addr ∧ addr ≤ 0xF033 then
    (v.fdc0.read (addr - 0xF030)).map (fun r => (r.1, { v with fdc0 := r.2 }))
  else if 0xF034 ≤ addr ∧ addr ≤ 0xF037 then
    (v.fdc1.read (addr - 0xF034)).map (fun r => (r.1, { v with fdc1 := r.2 }))
  else if 0xF038 ≤ addr ∧ addr ≤ 0xF0FE then none
  else if addr = 0xF0FF then some (v.irqLatch, { v with irqLatch := 0 })
  else some (v.mem.read addr, v)

/-- `CpuView::write` (sys.rs lines 304-319): note that every address from
0xF100 to 0xFFFF falls through to the final `_` arm and hence to
`Mem::write` — the ROM region has no write protection. -/
def write (v : SysBus) (addr data : Nat) : Option SysBus :=
  if 0xF000 ≤ addr ∧ addr ≤ 0xF00E then
    some { v with mem := { v.mem with bankSelect :=
      fun j => if j = addr - 0xF000 then data &&& 0b11 else v.mem.bankSelect j } }
  else if addr = 0xF00F then some v
  else if 0xF010 ≤ addr ∧ addr ≤ 0xF013 then
    (v.ser0.write (addr - 0xF010) data).map (fun u => { v with ser0 := u })
  else if 0xF014 ≤ addr ∧ addr ≤ 0xF017 then
    (v.ser1.write (addr - 0xF014) data).map (fun u => { v with ser1 := u })
  else if 0xF024 ≤ addr ∧ addr ≤ 0xF029 then none
  else if 0xF030 ≤ addr ∧ addr ≤ 0xF033 then
    (v.fdc0.write (addr - 0xF030) data).map (fun f => { v with fdc0 := f })
  else if 0xF034 ≤ addr ∧ addr ≤ 0xF037 then
    (v.fdc1.write (addr - 0xF034) data).map (fun f => { v with fdc1 := f })
  else if 0xF038 ≤ addr ∧ addr ≤ 0xF0FE then none
  else if addr = 0xF0FF then some v
  else some { v with mem := v.mem.write addr data }

end CpuView

/-- `System::new` (sys.rs lines 149-170): fresh devices, zeroed memory, and
the ROM image written byte by byte starting at 0xF100. -/
def sysNew (rom : List Nat) : SysBus :=
  { ser0 := uartNew, ser1 := uartNew, fdc0 := fdcNew, fdc1 := fdcNew, irqLatch := 0,
    mem := (rom.enum).foldl (fun m id => m.write (0xF100 + id.1) id.2)
      { inner := fun _ => 0, bankSelect := fun _ => 0 } }

/-- C4 (code bug): on a freshly constructed system whose ROM starts with byte
0x60, a CPU bus write of 0x42 to 0xF100 is *not* ignored: the bus read of
0xF100 returns 0x60 before the write and 0x42 after it. -/
theorem c4_rom_write_not_ignored :
    (CpuView.read (sysNew [0x60]) 0xF100).map Prod.fst = some 0x60 ∧
    ((CpuView.write (sysNew [0x60]) 0xF100 0x42).bind
      (fun v => (CpuView.read v 0xF100).map Prod.fst)) = some 0x42 := by
  constructor <;> rfl

/-! ## Assembler (src/asm/src/main.rs)

The assembler is embedded at the token level: the lexer's output alphabet
(single-character tokens, IDENT, NUMBER, STRING, EOF, NEWLINE) becomes an
inductive type carrying its payload, and the driver consumes a token list.
Macros, `INF` file inclusion and the parenthesised/bit-branch operand forms
are outside the modelled fragment; every path that would reach them returns
`none` (as do Rust panics such as `unwrap`/division by zero), while the
assembler's own error exits use `Except.error` with the source's message.
i32 arithmetic wraps mod 2^32 (release-mode Rust). -/

inductive Tok where
  | ident (s : String)
  | num (v : Int)
  | str (s : String)
  | newline
  | eof
  | ch (c : Nat)
deriving DecidableEq

/-- ASCII lower-casing of one character (kernel-reducible). -/
def lowerChar (c : Char) : Char :=
  if 65 ≤ c.toNat ∧ c.toNat ≤ 90 then Char.ofNat (c.toNat + 32) else c

/-- `str::eq_ignore_ascii_case`, over the character lists so that it reduces
definitionally. -/
def eqIC (a b : String) : Bool := a.data.map lowerChar == b.data.map lowerChar

/-- `str::starts_with(".")`, kernel-reducible. -/
def startsWithDot (s : String) : Bool :=
  match s.data with
  | c :: _ => c == Char.ofNat 46
  | [] => false

structure Asm where
  src : List Tok
  toks : List Tok
  out : List Nat
  pc : Nat
  pcEnd : Bool
  bss : Nat
  bssEnd : Bool
  syms : List (String × Int)
  outerLabel : String
  emit : Bool
  bssMode : Bool

namespace Asm

/-- `Asm::new` over an already-lexed token stream. -/
def new (toks : List Tok) : Asm :=
  { src := toks, toks := toks, out := [], pc := 0, pcEnd := false, bss := 0,
    bssEnd := false, syms := [], outerLabel := "", emit := false, bssMode := false }

/-- `Asm::rewind`: pass two starts with the source rewound, PC state and the
outer label cleared and the emit flag set; the symbol table is kept. -/
def rewind (st : Asm) : Asm :=
  { st with
    toks := st.src, pc := 0, pcEnd := false, bss := 0, bssEnd := false,
    outerLabel := "", emit := true, bssMode := false }

/-- The lexer's `peek`: the head token, or EOF forever once exhausted. -/
def peekT (st : Asm) : Tok := st.toks.headD .eof

/-- The lexer's `eat`. -/
def eatT (st : Asm) : Asm := { st with toks := st.toks.tail }

/-- `Asm::write` into the output sink. -/
def write (st : Asm) (bytes : List Nat) : Asm := { st with out := st.out ++ bytes }

/-- `Asm::pc`: the active program counter (text or BSS). -/
def pcGet (st : Asm) : Nat := if st.bssMode then st.bss else st.pc

def pcEndGet (st : Asm) : Bool := if st.bssMode then st.bssEnd else st.pcEnd

def setPc (st : Asm) (v : Nat) : Asm :=
  if st.bssMode then { st with bss := v } else { st with pc := v }

def setPcEnd (st : Asm) : Asm :=
  if st.bssMode then { st with bssEnd := true } else { st with pcEnd := true }

/-- `Asm::add_pc`: a single wrap to exactly 0 sets the end bit; any other
overflow, or any advance past the end bit, is the "pc overflow" error. -/
def addPc (st : Asm) (amt : Nat) : Except String Asm :=
  if st.pcEndGet ∧ amt > 0 then .error "pc overflow"
  else if st.pcGet + amt ≤ 65535 then .ok (st.setPc (st.pcGet + amt))
  else
    let value := (st.pcGet + amt) % 65536
    if value > 0 then .error "pc overflow"
    else .ok (st.setPcEnd.setPc value)

end Asm

/-- `expr as u32` for an i32 value (two's-complement cast). -/
def i32u32 (v : Int) : Nat := (v % 4294967296).toNat

/-- u32 back to i32 (two's-complement). -/
def u32i32 (n : Nat) : Int :=
  if n % 4294967296 < 2147483648 then (n % 4294967296 : Nat)
  else (n % 4294967296 : Nat) - 4294967296

/-- Release-mode i32 wraparound. -/
def wrap32 (v : Int) : Int := u32i32 (i32u32 v)

/-- `const_word`: `(expr as u32) > u16::MAX` is the range error. -/
def constWord (v : Int) : Except String Nat :=
  if i32u32 v > 65535 then .error "expression too large to fit in word"
  else .ok (i32u32 v)

/-- `const_byte`. -/
def constByte (v : Int) : Except String Nat :=
  if i32u32 v > 255 then .error "expression too large to fit in byte"
  else .ok (i32u32 v)

/-- `const_expr`: an unresolved expression is a hard error at use. -/
def constExpr (e : Option Int) : Except String Int :=
  match e with
  | none => .error "expression cannot be resolved"
  | some v => .ok v

/-- `const_short_branch`: displacement from the (already advanced) PC must
fit in i8; the byte is its two's complement. -/
def constShortBranch (st : Asm) (v : Int) : Except String Nat :=
  let branch := v - Int.ofNat st.pcGet
  if branch < -128 ∨ branch > 127 then .error "branch distance too far"
  else .ok (branch % 256).toNat

/-- `const_long_branch`: i16 range, little-endian u16 result. -/
def constLongBranch (st : Asm) (v : Int) : Except String Nat :=
  let branch := v - Int.ofNat st.pcGet
  if branch < -32768 ∨ branch > 32767 then .error "branch distance too far"
  else .ok (branch % 65536).toNat

/-- `end_of_line`: consume exactly one NEWLINE, accept EOF (the token-source
stack is a single root lexer in the modelled fragment). -/
def endOfLine (st : Asm) : Except String Asm :=
  match st.peekT with
  | .newline => .ok st.eatT
  | .eof => .ok st
  | _ => .error "unexpected garbage"

/-- `precedence` (lower binds tighter; `(` is the 0xFF sentinel). -/
def precedence (op : String) : Nat :=
  match op with
  | "neg" | "pos" | "lo" | "hi" => 0
  | "/" | "mod" | "*" => 1
  | "asl" | "lsr" | "asr" => 1
  | "+" | "-" | "xor" => 2
  | "not" => 3
  | "and" => 4
  | "or" => 5
  | _ => 0xFF

/-- `apply`: pop operands and push the operator's result.  `none` models the
source's panics (stack underflow, division by zero). -/
def applyOp (values : List Int) (op : String) : Option (List Int) :=
  match values with
  | [] => none
  | right :: rest =>
    match op with
    | "neg" => some (wrap32 (-right) :: rest)
    | "pos" => some (right :: rest)
    | "not" => some (wrap32 (-right - 1) :: rest)
    | "lo" => some ((Int.ofNat (i32u32 right &&& 0xFF)) :: rest)
    | "hi" => some ((Int.ofNat ((i32u32 right &&& 0xFF00) >>> 8)) :: rest)
    | _ =>
      match rest with
      | [] => none
      | left :: rest' =>
        match op with
        | "/" => if right = 0 then none else some (wrap32 (Int.tdiv left right) :: rest')
        | "mod" => if right = 0 then none else some (wrap32 (Int.tmod left right) :: rest')
        | "*" => some (wrap32 (left * right) :: rest')
        | "asl" => some (u32i32 ((i32u32 left <<< (i32u32 right % 32)) % 4294967296) :: rest')
        | "lsr" => some (u32i32 (i32u32 left >>> (i32u32 right % 32)) :: rest')
        | "asr" => some (wrap32 (left >>> (i32u32 right % 32)) :: rest')
        | "+" => some (wrap32 (left + right) :: rest')
        | "-" => some (wrap32 (left - right) :: rest')
        | "xor" => some (u32i32 (i32u32 left ^^^ i32u32 right) :: rest')
        | "and" => some (u32i32 (i32u32 left &&& i32u32 right) :: rest')
        | "or" => some (u32i32 (i32u32 left ||| i32u32 right) :: rest')
        | _ => none

/-- `push_and_apply`: apply stacked operators of tighter-or-equal precedence,
then push. -/
def pushAndApply : List Int → List String → String → Option (List Int × List String)
  | values, [], op => some (values, [op])
  | values, top :: rest, op =>
    if precedence top > precedence op then some (values, op :: top :: rest)
    else
      match applyOp values top with
      | none => none
      | some values' => pushAndApply values' rest op

/-- The PCLOSE drain: apply operators until the matching `(`. -/
def popToParen : List Int → List String → Except String (List Int × List String)
  | _, [] => .error "unbalanced parens"
  | values, op :: rest =>
    if op == "(" then .ok (values, rest)
    else
      match applyOp values op with
      | none => .error "panic"
      | some values' => popToParen values' rest

/-- Apply every remaining operator after the token loop ends. -/
def applyAll : List Int → List String → Option (List Int)
  | values, [] => some values
  | values, top :: rest => (applyOp values top).bind (fun v => applyAll v rest)

/-- The tail of `expr` after the token loop. -/
def exprFinish (values : List Int) (operators : List String) (unsolved : Bool)
    (st : Asm) : Except String (Option Int × Asm) :=
  match applyAll values operators with
  | none => .error "panic"
  | some values =>
    if unsolved then .ok (none, st)
    else
      match values with
      | v :: _ => .ok (some v, st)
      | [] => .error "expected value"

/-- The Shunting-Yard token loop of `expr` (main.rs lines 1072-1340).  `none`
is fuel exhaustion (the source loops until break/return). -/
def exprLoop : Nat → Asm → List Int → List String → Bool → Nat → Bool →
    Option (Except String (Option Int × Asm))
  | 0, _, _, _, _, _, _ => none
  | fuel + 1, st, values, operators, seenValue, parenDepth, unsolved =>
    match st.peekT with
    | .ch 42 =>
      let st := st.eatT
      if !seenValue then
        exprLoop fuel st (Int.ofNat st.pcGet :: values) operators true parenDepth unsolved
      else
        match pushAndApply values operators "*" with
        | none => some (.error "panic")
        | some (v, o) => exprLoop fuel st v o false parenDepth unsolved
    | .ch 43 =>
      let st := st.eatT
      match pushAndApply values operators (if seenValue then "+" else "pos") with
      | none => some (.error "panic")
      | some (v, o) => exprLoop fuel st v o false parenDepth unsolved
    | .ch 45 =>
      let st := st.eatT
      match pushAndApply values operators (if seenValue then "-" else "neg") with
      | none => some (.error "panic")
      | some (v, o) => exprLoop fuel st v o false parenDepth unsolved
    | .ch 60 =>
      let st := st.eatT
      if seenValue then some (.error "expected operator")
      else
        match pushAndApply values operators "lo" with
        | none => some (.error "panic")
        | some (v, o) => exprLoop fuel st v o false parenDepth unsolved
    | .ch 62 =>
      let st := st.eatT
      if seenValue then some (.error "expected operator")
      else
        match pushAndApply values operators "hi" with
        | none => some (.error "panic")
        | some (v, o) => exprLoop fuel st v o false parenDepth unsolved
    | .ch 47 =>
      let st := st.eatT
      if !seenValue then some (.error "expected value")
      else
        match pushAndApply values operators "/" with
        | none => some (.error "panic")
        | some (v, o) => exprLoop fuel st v o false parenDepth unsolved
    | .num n =>
      let st := st.eatT
      if seenValue then some (.error "expected operator")
      else exprLoop fuel st (n :: values) operators true parenDepth unsolved
    | .ch 40 =>
      let st := st.eatT
      if seenValue then some (.error "expected operator")
      else exprLoop fuel st values ("(" :: operators) false (parenDepth + 1) unsolved
    | .ch 41 =>
      if operators.isEmpty ∧ parenDepth = 0 then
        some (exprFinish values operators unsolved st)
      else
        let st := st.eatT
        if !seenValue then some (.error "expected value")
        else
          match popToParen values operators with
          | .error e => some (.error e)
          | .ok (v, o) => exprLoop fuel st v o seenValue (parenDepth - 1) unsolved
    | .ident name0 =>
      let name := if startsWithDot name0 then st.outerLabel ++ name0 else name0
      let st := { st with toks := Tok.ident name :: st.toks.tail }
      match st.syms.find? (fun sym => eqIC sym.1 name) with
      | some sym =>
        let st := st.eatT
        if seenValue then some (.error "expected operator")
        else exprLoop fuel st (sym.2 :: values) operators true parenDepth unsolved
      | none =>
        if eqIC name "mod" then
          let st := st.eatT
          if !seenValue then some (.error "expected value")
          else
            match pushAndApply values operators "mod" with
            | none => some (.error "panic")
            | some (v, o) => exprLoop fuel st v o false parenDepth unsolved
        else if eqIC name "asl" then
          let st := st.eatT
          if !seenValue then some (.error "expected value")
          else
            match pushAndApply values operators "asl" with
            | none => some (.error "panic")
            | some (v, o) => exprLoop fuel st v o false parenDepth unsolved
        else if eqIC name "lsr" then
          let st := st.eatT
          if !seenValue then some (.error "expected value")
          else
            match pushAndApply values operators "lsr" with
            | none => some (.error "panic")
            | some (v, o) => exprLoop fuel st v o false parenDepth unsolved
        else if eqIC name "asr" then
          let st := st.eatT
          if !seenValue then some (.error "expected value")
          else
            match pushAndApply values operators "asr" with
            | none => some (.error "panic")
            | some (v, o) => exprLoop fuel st v o false parenDepth unsolved
        else if eqIC name "xor" then
          let st := st.eatT
          if !seenValue then some (.error "expected value")
          else
            match pushAndApply values operators "xor" with
            | none => some (.error "panic")
            | some (v, o) => exprLoop fuel st v o false parenDepth unsolved
        else if eqIC name "and" then
          let st := st.eatT
          if !seenValue then some (.error "expected value")
          else
            match pushAndApply values operators "and" with
            | none => some (.error "panic")
            | some (v, o) => exprLoop fuel st v o false parenDepth unsolved
        else if eqIC name "or" then
          let st := st.eatT
          if !seenValue then some (.error "expected value")
          else
            match pushAndApply values operators "or" with
            | none => some (.error "panic")
            | some (v, o) => exprLoop fuel st v o false parenDepth unsolved
        else if eqIC name "not" then
          let st := st.eatT
          if seenValue then some (.error "expected value")
          else
            match pushAndApply values operators "not" with
            | none => some (.error "panic")
            | some (v, o) => exprLoop fuel st v o false parenDepth unsolved
        else
          -- an identifier that is neither keyword nor defined symbol: the
          -- expression is unsolved, a placeholder 1 is pushed
          let st := st.eatT
          if seenValue then some (.error "expected operator")
          else exprLoop fuel st (1 :: values) operators true parenDepth true
    | _ => some (exprFinish values operators unsolved st)

/-- `expr` (main.rs line 1072): evaluate one expression off the token
stream; `Ok none` is the unresolved ("absent") outcome. -/
def expr (fuel : Nat) (st : Asm) : Option (Except String (Option Int × Asm)) :=
  exprLoop fuel st [] [] false 0 false

/-! Addressing-mode tags (main.rs lines 293-311). -/

def IMM : Nat := 0
def ABS : Nat := 1
def BP : Nat := 2
def ACCUM : Nat := 3
def IMPL : Nat := 4
def IND_X : Nat := 5
def IND_Y : Nat := 6
def IND_Z : Nat := 7
def IND_SP : Nat := 8
def BP_X : Nat := 9
def BP_Y : Nat := 10
def ABS_X : Nat := 11
def ABS_Y : Nat := 12
def REL : Nat := 13
def WREL : Nat := 14
def IND_ABS : Nat := 15
def BP_REL : Nat := 16
def IND_ABS_X : Nat := 17

/-- The `OPS` table (main.rs lines 315-400): mnemonic → (mode, opcode) list. -/
def OPS : List (String × List (Nat × Nat)) := [
  ("AUG", [(IMPL, 0x5C)]),
  ("BRK", [(IMPL, 0x00)]),
  ("CLC", [(IMPL, 0x18)]),
  ("CLD", [(IMPL, 0xD8)]),
  ("CLE", [(IMPL, 0x02)]),
  ("CLI", [(IMPL, 0x58)]),
  ("CLV", [(IMPL, 0xB8)]),
  ("DEX", [(IMPL, 0xCA)]),
  ("DEY", [(IMPL, 0x88)]),
  ("DEZ", [(IMPL, 0x3B)]),
  ("INX", [(IMPL, 0xE8)]),
  ("INY", [(IMPL, 0xC8)]),
  ("INZ", [(IMPL, 0x1B)]),
  ("NOP", [(IMPL, 0xEA)]),
  ("PHA", [(IMPL, 0x48)]),
  ("PHP", [(IMPL, 0x08)]),
  ("PHX", [(IMPL, 0xDA)]),
  ("PHY", [(IMPL, 0x5A)]),
  ("PHZ", [(IMPL, 0xDB)]),
  ("PLA", [(IMPL, 0x68)]),
  ("PLP", [(IMPL, 0x28)]),
  ("PLX", [(IMPL, 0xFA)]),
  ("PLY", [(IMPL, 0x7A)]),
  ("PLZ", [(IMPL, 0xFB)]),
  ("RTI", [(IMPL, 0x40)]),
  ("RTN", [(IMPL, 0x62)]),
  ("RTS", [(IMPL, 0x60)]),
  ("SEC", [(IMPL, 0x38)]),
  ("SED", [(IMPL, 0xF8)]),
  ("SEE", [(IMPL, 0x03)]),
  ("SEI", [(IMPL, 0x78)]),
  ("TAB", [(IMPL, 0x5B)]),
  ("TAX", [(IMPL, 0xAA)]),
  ("TAY", [(IMPL, 0xA8)]),
  ("TBA", [(IMPL, 0x7B)]),
  ("TSX", [(IMPL, 0xBA)]),
  ("TSY", [(IMPL, 0x0B)]),
  ("TXA", [(IMPL, 0x8A)]),
  ("TXS", [(IMPL, 0x9A)]),
  ("TYA", [(IMPL, 0x98)]),
  ("TYS", [(IMPL, 0x2B)]),
  ("TZA", [(IMPL, 0x6B)]),
  ("ADC", [(IMM, 0x69), (ABS, 0x6D), (BP, 0x65), (IND_X, 0x61), (IND_Y, 0x71),
           (IND_Z, 0x72), (BP_X, 0x75), (ABS_X, 0x7D), (ABS_Y, 0x79)]),
  ("AND", [(IMM, 0x29), (ABS, 0x2D), (BP, 0x25), (IND_X, 0x21), (IND_Y, 0x31),
           (IND_Z, 0x32), (BP_X, 0x35), (ABS_X, 0x3D), (ABS_Y, 0x39)]),
  ("ASL", [(ABS, 0x0E), (BP, 0x06), (ACCUM, 0x0A), (BP_X, 0x16), (ABS_X, 0x1E)]),
  ("ASR", [(BP, 0x44), (ACCUM, 0x43), (BP_X, 0x54)]),
  ("ASW", [(ABS, 0xCB)]),
  ("BIT", [(IMM, 0x89), (ABS, 0x2C), (BP, 0x24), (BP_X, 0x34), (ABS_X, 0x3C)]),
  ("BBR", [(BP_REL, 0x0F), (BP_REL, 0x1F), (BP_REL, 0x2F), (BP_REL, 0x3F),
           (BP_REL, 0x4F), (BP_REL, 0x5F), (BP_REL, 0x6F), (BP_REL, 0x7F)]),
  ("BBS", [(BP_REL, 0x8F), (BP_REL, 0x9F), (BP_REL, 0xAF), (BP_REL, 0xBF),
           (BP_REL, 0xCF), (BP_REL, 0xDF), (BP_REL, 0xEF), (BP_REL, 0xFF)]),
  ("BCC", [(REL, 0x90), (WREL, 0x93)]),
  ("BCS", [(REL, 0xB0), (WREL, 0xB3)]),
  ("BEQ", [(REL, 0xF0), (WREL, 0xF3)]),
  ("BMI", [(REL, 0x30), (WREL, 0x33)]),
  ("BNE", [(REL, 0xD0), (WREL, 0xD3)]),
  ("BPL", [(REL, 0x10), (WREL, 0x13)]),
  ("BRU", [(REL, 0x80), (WREL, 0x83)]),
  ("BSR", [(WREL, 0x63)]),
  ("BVC", [(REL, 0x50), (WREL, 0x53)]),
  ("BVS", [(REL, 0x70), (WREL, 0x73)]),
  ("CMP", [(IMM, 0xC9), (ABS, 0xCD), (BP, 0xC5), (IND_X, 0xC1), (IND_Y, 0xD1),
           (IND_Z, 0xD2), (BP_X, 0xD5), (ABS_X, 0xDD), (ABS_Y, 0xD9)]),
  ("DEC", [(ABS, 0xCE), (BP, 0xC6), (ACCUM, 0x3A), (BP_X, 0xD6), (ABS_X, 0xDE)]),
  ("EOR", [(IMM, 0x49), (ABS, 0x4D), (BP, 0x45), (IND_X, 0x41), (IND_Y, 0x51),
           (IND_Z, 0x52), (BP_X, 0x55), (ABS_X, 0x5D), (ABS_Y, 0x59)]),
  ("INC", [(ABS, 0xEE), (BP, 0xE6), (ACCUM, 0x1A), (BP_X, 0xF6), (ABS_X, 0xFE)]),
  ("INW", [(BP, 0xE3)]),
  ("JMP", [(ABS, 0x4C), (IND_ABS, 0x6C), (IND_ABS_X, 0x7C)]),
  ("JSR", [(ABS, 0x20), (IND_ABS, 0x22), (IND_ABS_X, 0x23)]),
  ("LDA", [(IMM, 0xA9), (ABS, 0xAD), (BP, 0xA5), (IND_X, 0xA1), (IND_Y, 0xB1),
           (IND_Z, 0xB2), (IND_SP, 0xE2), (BP_X, 0xB5), (ABS_X, 0xBD), (ABS_Y, 0xB9)]),
  ("LDX", [(IMM, 0xA2), (ABS, 0xAE), (BP, 0xA6), (BP_Y, 0xB6), (ABS_Y, 0xBE)]),
  ("LDY", [(IMM, 0xA0), (ABS, 0xAC), (BP, 0xA4), (BP_X, 0xB4), (ABS_X, 0xBC)]),
  ("LDZ", [(IMM, 0xA3), (ABS, 0xAB), (ABS_X, 0xBB)]),
  ("LSR", [(ABS, 0x4E), (BP, 0x46), (ACCUM, 0x4A), (BP_X, 0x56), (ABS_X, 0x5E)]),
  ("NEG", [(ACCUM, 0x42)]),
  ("ORA", [(IMM, 0x09), (ABS, 0x0D), (BP, 0x05), (IND_X, 0x01), (IND_Y, 0x11),
           (IND_Z, 0x12), (BP_X, 0x15), (ABS_X, 0x1D), (ABS_Y, 0x19)]),
  ("RMB", [(BP, 0x07), (BP, 0x17), (BP, 0x27), (BP, 0x37), (BP, 0x47), (BP, 0x57),
           (BP, 0x67), (BP, 0x77)]),
  ("ROL", [(ABS, 0x2E), (BP, 0x26), (ACCUM, 0x2A), (BP_X, 0x36), (ABS_X, 0x3E)]),
  ("ROR", [(ABS, 0x6E), (BP, 0x66), (ACCUM, 0x6A), (BP_X, 0x76), (ABS_X, 0x7E)]),
  ("ROW", [(ABS, 0xEB)]),
  ("SBC", [(IMM, 0xE9), (ABS, 0xED), (BP, 0xE5), (IND_X, 0xE1), (IND_Y, 0xF1),
           (IND_Z, 0xF2), (BP_X, 0xF5), (ABS_X, 0xFD), (ABS_Y, 0xF9)]),
  ("SMB", [(BP, 0x87), (BP, 0x97), (BP, 0xA7), (BP, 0xB7), (BP, 0xC7), (BP, 0xD7),
           (BP, 0xE7), (BP, 0xF7)]),
  ("STA", [(ABS, 0x8D), (BP, 0x85), (IND_X, 0x81), (IND_Y, 0x91), (IND_Z, 0x92),
           (IND_SP, 0x82), (BP_X, 0x95), (ABS_X, 0x9D), (ABS_Y, 0x99)]),
  ("STX", [(ABS, 0x8E), (BP, 0x86), (ABS_Y, 0x96), (ABS_Y, 0x9B)]),
  ("STY", [(ABS, 0x8C), (BP, 0x84), (ABS_X, 0x94), (ABS_X, 0x8B)]),
  ("STZ", [(ABS, 0x9C), (BP, 0x64), (ABS_X, 0x74), (ABS_X, 0x9E)]),
  ("TRB", [(ABS, 0x1C), (BP, 0x14)]),
  ("TSB", [(ABS, 0x0C), (BP, 0x04)])]

/-- The pseudo-op name set (`POPS`, main.rs lines 1461-1470). -/
def POPS : List String := ["BYT", "WRD", "PAD", "ADJ", "BSS", "TXT", "INF"]

/-- The branch family dispatched to the REL/WREL sizing logic. -/
def branchMnemonics : List String :=
  ["BCC", "BCS", "BEQ", "BMI", "BNE", "BPL", "BRU", "BSR", "BVC", "BVS"]

/-- Sequencing helper: propagate an `Except` into the `Option (Except ...)`
result type of the fallible-and-possibly-unmodelled assembler functions. -/
def ebind {α β : Type} (x : Except String α) (f : α → Option (Except String β)) :
    Option (Except String β) :=
  match x with
  | .error e => some (.error e)
  | .ok a => f a

/-- Sequencing helper through `Option (Except ...)`. -/
def obind {α β : Type} (x : Option (Except String α))
    (f : α → Option (Except String β)) : Option (Except String β) :=
  match x with
  | none => none
  | some (.error e) => some (.error e)
  | some (.ok a) => f a

def eok {α : Type} (a : α) : Option (Except String α) := some (.ok a)

def eerr {α : Type} (m : String) : Option (Except String α) := some (.error m)

/-- The long (WREL) tail of the branch encoder (main.rs lines 685-697): emit
the WREL opcode, advance PC by 3, then — on pass two — narrow the
displacement from the advanced PC to i16 and emit it little-endian. -/
def branchWrel (entries : List (Nat × Nat)) (e : Option Int) (st : Asm) :
    Option (Except String Asm) :=
  match entries.find? (fun me => me.1 == WREL) with
  | none => none
  | some me =>
    let st := if st.emit then st.write [me.2] else st
    ebind (st.addPc 3) fun st =>
      if st.emit then
        ebind (constExpr e) fun v =>
          ebind (constLongBranch st v) fun w =>
            eok (st.write [w % 256, w / 256])
      else eok st

/-- The branch-family encoder (main.rs lines 656-698), taking the already
evaluated operand expression: a resolved expression whose displacement from
PC+2 fits in i8 picks the 2-byte REL form unless the mnemonic is BSR;
everything else falls to the 3-byte WREL form. -/
def branchOperand (mn : String) (entries : List (Nat × Nat)) (e : Option Int)
    (st : Asm) : Option (Except String Asm) :=
  match e with
  | some v =>
    let branch := v - (Int.ofNat st.pcGet + 2)
    if -128 ≤ branch ∧ branch ≤ 127 ∧ eqIC mn "BSR" = false then
      match entries.find? (fun me => me.1 == REL) with
      | none => none
      | some me =>
        let st := if st.emit then st.write [me.2] else st
        let st := if st.emit then st.write [(branch % 256).toNat] else st
        ebind (st.addPc 2) eok
    else branchWrel entries e st
  | none => branchWrel entries e st

/-- The indexed/direct tail of `operand` (main.rs lines 699-823): optional
`|` forcing absolute, then BP,X / ABS,X, BP,Y / ABS,Y, or BP / ABS, choosing
the short form when the value is resolved and fits one byte. -/
def opTail (fuel : Nat) (st : Asm) (entries : List (Nat × Nat)) :
    Option (Except String Asm) :=
  let forceAbs := st.peekT == Tok.ch 124
  let st := if forceAbs then st.eatT else st
  obind (expr fuel st) fun es =>
    let (e, st) := es
    if st.peekT == Tok.ch 44 then
      let st := st.eatT
      if st.peekT == Tok.ch 88 then
        let st := st.eatT
        let short? : Option (Nat × Int) :=
          if forceAbs then none
          else
            match entries.find? (fun me => me.1 == BP_X), e with
            | some me, some v => if i32u32 v ≤ 255 then some (me.2, v) else none
            | _, _ => none
        match short? with
        | some (opc, v) =>
          let st := if st.emit then st.write [opc] else st
          ebind (st.addPc 1) fun st =>
            let st := if st.emit then st.write [i32u32 v % 256] else st
            ebind (st.addPc 1) eok
        | none =>
          match entries.find? (fun me => me.1 == ABS_X) with
          | none => eerr "illegal addressing mode"
          | some me =>
            let st := if st.emit then st.write [me.2] else st
            ebind (st.addPc 1) fun st =>
              ebind (if st.emit then do
                       let v ← constExpr e
                       let w ← constWord v
                       pure (st.write [w % 256, w / 256])
                     else .ok st) fun st =>
                ebind (st.addPc 2) eok
      else if st.peekT == Tok.ch 89 then
        let st := st.eatT
        let short? : Option (Nat × Int) :=
          if forceAbs then none
          else
            match entries.find? (fun me => me.1 == BP_Y), e with
            | some me, some v => if i32u32 v ≤ 255 then some (me.2, v) else none
            | _, _ => none
        match short? with
        | some (opc, v) =>
          let st := if st.emit then st.write [opc] else st
          ebind (st.addPc 1) fun st =>
            let st := if st.emit then st.write [i32u32 v % 256] else st
            ebind (st.addPc 1) eok
        | none =>
          match entries.find? (fun me => me.1 == ABS_Y) with
          | none => eerr "illegal addressing mode"
          | some me =>
            let st := if st.emit then st.write [me.2] else st
            ebind (st.addPc 1) fun st =>
              ebind (if st.emit then do
                       let v ← constExpr e
                       let w ← constWord v
                       pure (st.write [w % 256, w / 256])
                     else .ok st) fun st =>
                ebind (st.addPc 2) eok
      else eerr "illegal addressing mode"
    else
      let short? : Option (Nat × Int) :=
        if forceAbs then none
        else
          match entries.find? (fun me => me.1 == BP), e with
          | some me, some v => if i32u32 v ≤ 255 then some (me.2, v) else none
          | _, _ => none
      match short? with
      | some (opc, v) =>
        let st := if st.emit then st.write [opc] else st
        ebind (st.addPc 1) fun st =>
          let st := if st.emit then st.write [i32u32 v % 256] else st
          ebind (st.addPc 1) eok
      | none =>
        match entries.find? (fun me => me.1 == ABS) with
        | none => eerr "illegal addressing mode"
        | some me =>
          let st := if st.emit then st.write [me.2] else st
          ebind (st.addPc 1) fun st =>
            ebind (if st.emit then do
                     let v ← constExpr e
                     let w ← constWord v
                     pure (st.write [w % 256, w / 256])
                   else .ok st) fun st =>
              ebind (st.addPc 2) eok

/-- `operand` (main.rs lines 402-823).  The parenthesised indirect forms and
the BBS/BBR/RMB/SMB bit forms are outside the modelled fragment (`none`); the
implied, immediate, accumulator, branch and indexed/direct arms are
transcribed. -/
def operand (fuel : Nat) (st : Asm) (mn : String) (entries : List (Nat × Nat)) :
    Option (Except String Asm) :=
  if entries.length == 1 ∧ (entries.headD (0, 0)).1 == IMPL then
    let opcode := (entries.headD (0, 0)).2
    let st := if st.emit then st.write [opcode] else st
    ebind (st.addPc 1) fun st =>
      if eqIC mn "AUG" then
        let st := if st.emit then st.write [0xEA, 0xEA, 0xEA] else st
        ebind (st.addPc 3) eok
      else if eqIC mn "BRK" then
        let st := if st.emit then st.write [0xEA] else st
        ebind (st.addPc 1) eok
      else if eqIC mn "RTN" then
        obind (expr fuel st) fun es =>
          let (e, st) := es
          ebind (if st.emit then do
                   let v ← constExpr e
                   let b ← constByte v
                   pure (st.write [b])
                 else .ok st) fun st =>
            ebind (st.addPc 1) eok
      else eok st
  else if st.peekT == Tok.ch 35 then
    let st := st.eatT
    match entries.find? (fun me => me.1 == IMM) with
    | some me =>
      let st := if st.emit then st.write [me.2] else st
      ebind (st.addPc 1) fun st =>
        obind (expr fuel st) fun es =>
          let (e, st) := es
          if eqIC mn "PHW" then
            ebind (if st.emit then do
                     let v ← constExpr e
                     let w ← constWord v
                     pure (st.write [w % 256, w / 256])
                   else .ok st) fun st =>
              ebind (st.addPc 2) eok
          else
            ebind (if st.emit then do
                     let v ← constExpr e
                     let b ← constByte v
                     pure (st.write [b])
                   else .ok st) fun st =>
              ebind (st.addPc 1) eok
    | none => eerr "illegal addressing mode"
  else if st.peekT == Tok.ch 65 then
    let st := st.eatT
    match entries.find? (fun me => me.1 == ACCUM) with
    | some me =>
      let st := if st.emit then st.write [me.2] else st
      ebind (st.addPc 1) eok
    | none => eerr "illegal addressing mode"
  else if st.peekT == Tok.ch 40 then none
  else if eqIC mn "BBS" ∨ eqIC mn "BBR" then none
  else if eqIC mn "RMB" ∨ eqIC mn "SMB" then none
  else if branchMnemonics.any (fun b => eqIC mn b) then
    obind (expr fuel st) fun es => branchOperand mn entries es.1 es.2
  else opTail fuel st entries

/-- `byt`: emit a comma-separated list of bytes; STRING literals emit their
bytes in order (ASCII payloads assumed, as the lexer only produces them). -/
def bytLoop : Nat → Asm → Option (Except String Asm)
  | 0, _ => none
  | fuel + 1, st =>
    let cont : Asm → Option (Except String Asm) := fun st =>
      if st.peekT == Tok.ch 44 then bytLoop fuel st.eatT
      else ebind (endOfLine st) eok
    match st.peekT with
    | .str s =>
      let st := if st.emit then st.write (s.toList.map Char.toNat) else st
      ebind (st.addPc s.length) fun st => cont st.eatT
    | _ =>
      obind (expr (fuel + 1) st) fun es =>
        let (e, st) := es
        ebind (if st.emit then do
                 let v ← constExpr e
                 let b ← constByte v
                 pure (st.write [b])
               else .ok st) fun st =>
          ebind (st.addPc 1) cont

/-- `wrd`: comma-separated little-endian words. -/
def wrdLoop : Nat → Asm → Option (Except String Asm)
  | 0, _ => none
  | fuel + 1, st =>
    obind (expr (fuel + 1) st) fun es =>
      let (e, st) := es
      ebind (if st.emit then do
               let v ← constExpr e
               let w ← constWord v
               pure (st.write [w % 256, w / 256])
             else .ok st) fun st =>
        ebind (st.addPc 2) fun st =>
          if st.peekT == Tok.ch 44 then wrdLoop fuel st.eatT
          else ebind (endOfLine st) eok

/-- `pad` (main.rs lines 1342-1354): advance PC by the operand, emitting that
many NOPs in text mode on pass two. -/
def pad (fuel : Nat) (st : Asm) : Option (Except String Asm) :=
  obind (expr fuel st) fun es =>
    let (e, st) := es
    ebind (constExpr e) fun v =>
      ebind (constWord v) fun w =>
        let st := if st.emit ∧ !st.bssMode then st.write (List.replicate w 0xEA) else st
        ebind (st.addPc w) fun st =>
          ebind (endOfLine st) eok

/-- `adj` (main.rs lines 1356-1369): the advance is `pc % word` (and the NOP
emission is gated only on the pass, not on BSS mode); `word = 0` would panic
(`none`). -/
def adj (fuel : Nat) (st : Asm) : Option (Except String Asm) :=
  obind (expr fuel st) fun es =>
    let (e, st) := es
    ebind (constExpr e) fun v =>
      ebind (constWord v) fun w =>
        if w = 0 then none
        else
          let amt := st.pcGet % w
          let st := if st.emit then st.write (List.replicate amt 0xEA) else st
          ebind (st.addPc amt) fun st =>
            ebind (endOfLine st) eok

/-- `bss`: switch to BSS mode. -/
def bssPop (st : Asm) : Option (Except String Asm) :=
  ebind (endOfLine { st with bssMode := true }) eok

/-- `txt`: switch to text mode. -/
def txtPop (st : Asm) : Option (Except String Asm) :=
  ebind (endOfLine { st with bssMode := false }) eok

/-- Dispatch a pseudo-op by name (`POPS`); `INF` pushes a file lexer and is
outside the modelled fragment. -/
def popRun (fuel : Nat) (name : String) (st : Asm) : Option (Except String Asm) :=
  if eqIC name "BYT" then bytLoop fuel st
  else if eqIC name "WRD" then wrdLoop fuel st
  else if eqIC name "PAD" then pad fuel st
  else if eqIC name "ADJ" then adj fuel st
  else if eqIC name "BSS" then bssPop st
  else if eqIC name "TXT" then txtPop st
  else none

/-- Update the value of the symbol at index `i`. -/
def Asm.symSet (st : Asm) (i : Nat) (v : Int) : Asm :=
  { st with syms := st.syms.set i ((st.syms.getD i ("", 0)).1, v) }

/-- The pseudo-op/opcode dispatch and end-of-line handling shared by the tail
of each driver iteration; `k` continues the pass loop. -/
def passLine (fuel : Nat) (k : Asm → Option (Except String Asm)) (st : Asm) :
    Option (Except String Asm) :=
  if st.bssMode then
    -- only PAD, ADJ, TXT and INF are honoured in BSS mode
    match st.peekT with
    | .ident n =>
      if eqIC n "PAD" then obind (pad fuel st.eatT) k
      else if eqIC n "ADJ" then obind (adj fuel st.eatT) k
      else if eqIC n "TXT" then obind (txtPop st.eatT) k
      else if eqIC n "INF" then none
      else ebind (endOfLine st) k
    | _ => ebind (endOfLine st) k
  else
    match st.peekT with
    | .ident n =>
      if POPS.any (fun p => eqIC n p) then
        obind (popRun fuel n st.eatT) k
      else
        match OPS.find? (fun o => eqIC n o.1) with
        | none => eerr "unknown opcode"
        | some op =>
          obind (operand fuel st.eatT op.1 op.2) fun st =>
            ebind (endOfLine st) k
    | _ => ebind (endOfLine st) k

/-- One pass of the driver loop (`pass`, main.rs lines 79-291), recursing on
fuel at every `continue`.  Macro definition/invocation and `INF` are outside
the modelled fragment (`none`); the token-source stack is the single root
lexer, so EOF ends the pass. -/
def passLoop : Nat → Asm → Option (Except String Asm)
  | 0, _ => none
  | fuel + 1, st =>
    match st.peekT with
    | .eof => eok st
    | .ch 42 =>
      -- `* EQU expr` sets the active PC (the EQU spelling is checked only
      -- when the next token is not an identifier, as in the source)
      let st := st.eatT
      let proceed : Bool :=
        match st.peekT with
        | .ident _ => true
        | .str s2 => eqIC s2 "EQU"
        | _ => false
      if proceed then
        let st := st.eatT
        obind (expr fuel st) fun es =>
          let (e, st) := es
          ebind (constExpr e) fun v =>
            ebind (constWord v) fun p =>
              ebind (endOfLine (st.setPc p)) fun st => passLoop fuel st
      else eerr "expected EQU"
    | .ident name0 =>
      if ¬(eqIC name0 "EQU") ∧ ¬(eqIC name0 "MAC") ∧
          ¬(OPS.any (fun o => eqIC name0 o.1)) ∧ ¬(POPS.any (fun p => eqIC name0 p)) then
        -- label definition
        let name := if startsWithDot name0 then st.outerLabel ++ name0 else name0
        let st :=
          if startsWithDot name0 then { st with toks := Tok.ident name :: st.toks.tail }
          else { st with outerLabel := name0 }
        let st := st.eatT
        let isMac : Bool :=
          match st.peekT with
          | .ident n2 => eqIC n2 "MAC"
          | _ => false
        if isMac then none
        else
          let withIndex : Option (Except String (Nat × Asm)) :=
            match st.syms.findIdx? (fun sym => sym.1 == name) with
            | some i => if ¬st.emit then eerr "symbol already defined" else eok (i, st)
            | none => eok (st.syms.length, { st with syms := st.syms ++ [(name, 0)] })
          obind withIndex fun is =>
            let (i, st) := is
            let isEqu : Bool :=
              match st.peekT with
              | .ident n2 => eqIC n2 "EQU"
              | _ => false
            if isEqu then
              let st := st.eatT
              obind (expr fuel st) fun es =>
                let (e, st) := es
                obind
                  (if st.emit then
                     ebind (constExpr e) fun v => eok (st.symSet i v)
                   else
                     match e with
                     | some v => eok (st.symSet i v)
                     | none => eok { st with syms := st.syms.dropLast }) fun st =>
                  ebind (endOfLine st) fun st => passLoop fuel st
            else
              let st := st.symSet i (Int.ofNat st.pcGet)
              passLine fuel (passLoop fuel) st
      else passLine fuel (passLoop fuel) st
    | _ => passLine fuel (passLoop fuel) st

/-- Both passes (`main_real`, main.rs lines 52-62): pass one collects, the
state is rewound, pass two emits.  Returns the state after each pass. -/
def assemble (fuel : Nat) (toks : List Tok) : Option (Except String (Asm × Asm)) :=
  obind (passLoop fuel (Asm.new toks)) fun st1 =>
    obind (passLoop fuel st1.rewind) fun st2 =>
      eok (st1, st2)

/-- Token stream of the program

```
       LDA foo
lbl    NOP
foo    EQU $10
```

whose forward reference `foo` is unresolved on pass one (so `LDA foo` takes
the 3-byte ABS form) but resolves to a one-byte value on pass two (2-byte BP
form), shifting `lbl`. -/
def c2toks : List Tok :=
  [.ident "lda", .ident "foo", .newline,
   .ident "lbl", .ident "nop", .newline,
   .ident "foo", .ident "equ", .num 16, .newline]

set_option maxRecDepth 100000 in
/-- C2 (code bug): the program `c2toks` assembles without error on both
passes, yet the non-EQU label `lbl` is assigned 3 on pass one and 2 on pass
two — the pass-two label redefinition (main.rs lines 201-216) stores the new
PC without the equality check its own `todo` comment calls for. -/
theorem c2_two_pass_divergence :
    (assemble 64 c2toks).map (fun r => r.map (fun sts => (sts.1.syms, sts.2.syms))) =
      some (.ok ([("lbl", 3), ("foo", 16)], [("lbl", 2), ("foo", 16)])) := by
  rfl

/-- Token stream of `* EQU 5` followed by `ADJ 4`. -/
def c6toks : List Tok :=
  [.ch 42, .ident "equ", .num 5, .newline, .ident "adj", .num 4, .newline]

set_option maxRecDepth 100000 in
/-- C6 (code bug): after `ADJ 4` from PC = 5 the program counter is 6 — not a
multiple of 4 — because `adj` advances by `pc % n` instead of
`(n - pc % n) % n`; the single byte it emits is a NOP (0xEA). -/
theorem c6_adj_not_multiple :
    (assemble 64 c6toks).map (fun r => r.map (fun sts => (sts.2.pc, sts.2.out))) =
      some (.ok (6, [0xEA])) ∧ 6 % 4 ≠ 0 := by
  exact ⟨by rfl, by decide⟩

/-! Structural lemmas about the PC/output bookkeeping, used to characterise
the branch encoder. -/

theorem write_out (st : Asm) (bs : List Nat) : (st.write bs).out = st.out ++ bs := rfl

theorem write_pcGet (st : Asm) (bs : List Nat) : (st.write bs).pcGet = st.pcGet := rfl

theorem write_emit (st : Asm) (bs : List Nat) : (st.write bs).emit = st.emit := rfl

theorem setPc_pcGet (st : Asm) (v : Nat) : (st.setPc v).pcGet = v := by
  unfold Asm.setPc Asm.pcGet; split <;> simp

theorem setPc_out (st : Asm) (v : Nat) : (st.setPc v).out = st.out := by
  unfold Asm.setPc; split <;> rfl

theorem setPc_emit (st : Asm) (v : Nat) : (st.setPc v).emit = st.emit := by
  unfold Asm.setPc; split <;> rfl

theorem setPcEnd_pcGet (st : Asm) : st.setPcEnd.pcGet = st.pcGet := by
  unfold Asm.setPcEnd Asm.pcGet; split <;> simp

theorem setPcEnd_bssMode (st : Asm) : st.setPcEnd.bssMode = st.bssMode := by
  unfold Asm.setPcEnd; split <;> rfl

theorem setPcEnd_setPc_pcGet (st : Asm) (v : Nat) : (st.setPcEnd.setPc v).pcGet = v :=
  setPc_pcGet _ _

theorem setPcEnd_setPc_out (st : Asm) (v : Nat) : (st.setPcEnd.setPc v).out = st.out := by
  rw [setPc_out]; unfold Asm.setPcEnd; split <;> rfl

theorem setPcEnd_setPc_emit (st : Asm) (v : Nat) : (st.setPcEnd.setPc v).emit = st.emit := by
  rw [setPc_emit]; unfold Asm.setPcEnd; split <;> rfl

/-- What a successful `add_pc` does: the active PC advances modulo 2^16 and
nothing else changes. -/
theorem addPc_ok (st st' : Asm) (amt : Nat) (h : st.addPc amt = .ok st') :
    st'.pcGet = (st.pcGet + amt) % 65536 ∧ st'.out = st.out ∧ st'.emit = st.emit := by
  unfold Asm.addPc at h
  dsimp only at h
  split at h
  · exact absurd h (by simp)
  · next hle =>
    split at h
    · next hsmall =>
      cases h
      refine ⟨?_, setPc_out _ _, setPc_emit _ _⟩
      rw [setPc_pcGet, Nat.mod_eq_of_lt (by omega)]
    · next hbig =>
      split at h
      · exact absurd h (by simp)
      · next hz =>
        cases h
        refine ⟨?_, setPcEnd_setPc_out _ _, setPcEnd_setPc_emit _ _⟩
        rw [setPcEnd_setPc_pcGet]

/-- The operand-mode lookup a table row provides for a given mode tag. -/
def modeOpcode (entries : List (Nat × Nat)) (m : Nat) : Nat :=
  ((entries.find? (fun me => me.1 == m)).getD (0, 0)).2

/-- The table row of a mnemonic, exactly as the driver fetches it. -/
def opsEntries (mn : String) : List (Nat × Nat) :=
  ((OPS.find? (fun o => eqIC mn o.1)).getD ("", [])).2

/-- The condition under which the branch encoder selects the short (REL)
form: a resolved expression, a displacement from PC+2 within i8, and a
mnemonic other than BSR. -/
def relSelected (mn : String) (e : Option Int) (pc : Nat) : Prop :=
  ∃ v, e = some v ∧ -128 ≤ v - (Int.ofNat pc + 2) ∧ v - (Int.ofNat pc + 2) ≤ 127 ∧
    eqIC mn "BSR" = false

theorem ite_false_eq {α : Sort _} {a b : α} : (if false = true then a else b) = b := rfl

theorem ite_true_eq {α : Sort _} {a b : α} : (if true = true then a else b) = a := rfl

/-- Success of the WREL tail: PC advances by 3, and on pass two exactly the
WREL opcode plus a two-byte displacement are appended. -/
theorem branchWrel_spec (entries : List (Nat × Nat)) (wrelOp : Nat)
    (hfind : entries.find? (fun me => me.1 == WREL) = some (WREL, wrelOp))
    (e : Option Int) (st st' : Asm) (h : branchWrel entries e st = some (.ok st')) :
    st'.pcGet = (st.pcGet + 3) % 65536 ∧
    ∃ tail, st'.out = st.out ++ (if st.emit then wrelOp :: tail else []) ∧
      (st.emit = true → tail.length = 2) := by
  unfold branchWrel at h
  rw [hfind] at h
  cases hemit : st.emit
  · simp only [hemit, write_emit, ite_false_eq, ite_true_eq, if_true, if_false] at h
    cases haddPc : st.addPc 3 with
    | error msg => rw [haddPc] at h; simp [ebind] at h
    | ok st1 =>
      rw [haddPc] at h
      have h1 := addPc_ok st st1 3 haddPc
      simp only [ebind] at h
      rw [h1.2.2, hemit] at h
      simp only [ite_false_eq, ite_true_eq, if_true, if_false, eok, Option.some.injEq, Except.ok.injEq] at h
      subst h
      exact ⟨h1.1, [], by simp [h1.2.1], by simp⟩
  · simp only [hemit, write_emit, ite_false_eq, ite_true_eq, if_true, if_false] at h
    cases haddPc : (st.write [wrelOp]).addPc 3 with
    | error msg => rw [haddPc] at h; simp [ebind] at h
    | ok st1 =>
      rw [haddPc] at h
      have h1 := addPc_ok _ st1 3 haddPc
      rw [write_pcGet, write_out, write_emit] at h1
      simp only [ebind] at h
      rw [h1.2.2, hemit] at h
      simp only [ite_false_eq, ite_true_eq, if_true, if_false] at h
      cases e with
      | none => simp [constExpr, ebind] at h
      | some v =>
        simp only [constExpr, ebind] at h
        unfold constLongBranch at h
        dsimp only at h
        by_cases hrange : v - Int.ofNat st1.pcGet < -32768 ∨ v - Int.ofNat st1.pcGet > 32767
        · rw [if_pos hrange] at h; simp [ebind] at h
        · rw [if_neg hrange] at h
          simp only [ebind, eok, Option.some.injEq, Except.ok.injEq] at h
          subst h
          refine ⟨by rw [write_pcGet, h1.1], [((v - Int.ofNat st1.pcGet) % 65536).toNat % 256,
            ((v - Int.ofNat st1.pcGet) % 65536).toNat / 256], ?_, fun _ => rfl⟩
          rw [write_out, h1.2.1]
          simp

/-- Success of the REL path: PC advances by 2, and on pass two exactly the
REL opcode plus the one-byte two's-complement displacement are appended. -/
theorem branchRel_spec (mn : String) (entries : List (Nat × Nat)) (relOp : Nat)
    (hfind : entries.find? (fun me => me.1 == REL) = some (REL, relOp))
    (v : Int) (st st' : Asm)
    (hB : eqIC mn "BSR" = false)
    (hlo : -128 ≤ v - (Int.ofNat st.pcGet + 2)) (hhi : v - (Int.ofNat st.pcGet + 2) ≤ 127)
    (h : branchOperand mn entries (some v) st = some (.ok st')) :
    st'.pcGet = (st.pcGet + 2) % 65536 ∧
    st'.out = st.out ++ (if st.emit then
      [relOp, ((v - (Int.ofNat st.pcGet + 2)) % 256).toNat] else []) := by
  unfold branchOperand at h
  dsimp only at h
  rw [if_pos ⟨hlo, hhi, hB⟩, hfind] at h
  cases hemit : st.emit
  · simp only [hemit, write_emit, ite_false_eq, ite_true_eq, if_true, if_false] at h
    cases haddPc : st.addPc 2 with
    | error msg => rw [haddPc] at h; simp [ebind] at h
    | ok st1 =>
      rw [haddPc] at h
      have h1 := addPc_ok st st1 2 haddPc
      simp only [ebind, eok, Option.some.injEq, Except.ok.injEq] at h
      subst h
      exact ⟨h1.1, by simp [h1.2.1]⟩
  · simp only [hemit, write_emit, ite_false_eq, ite_true_eq, if_true, if_false] at h
    cases haddPc : ((st.write [relOp]).write
        [((v - (Int.ofNat st.pcGet + 2)) % 256).toNat]).addPc 2 with
    | error msg => rw [haddPc] at h; simp [ebind] at h
    | ok st1 =>
      rw [haddPc] at h
      have h1 := addPc_ok _ st1 2 haddPc
      rw [write_pcGet, write_pcGet, write_out, write_out] at h1
      simp only [ebind, eok, Option.some.injEq, Except.ok.injEq] at h
      subst h
      exact ⟨h1.1, by rw [h1.2.1]; simp⟩

/-- The non-REL side of the dispatch lands in the WREL tail. -/
theorem branchOperand_long (mn : String) (entries : List (Nat × Nat)) (wrelOp : Nat)
    (hfind : entries.find? (fun me => me.1 == WREL) = some (WREL, wrelOp))
    (e : Option Int) (st st' : Asm)
    (hn : ¬ relSelected mn e st.pcGet)
    (h : branchOperand mn entries e st = some (.ok st')) :
    st'.pcGet = (st.pcGet + 3) % 65536 ∧
    ∃ tail, st'.out = st.out ++ (if st.emit then wrelOp :: tail else []) ∧
      (st.emit = true → tail.length = 2) := by
  unfold branchOperand at h
  cases e with
  | none => exact branchWrel_spec entries wrelOp hfind none st st' h
  | some v =>
    dsimp only at h
    rw [if_neg (fun hc => hn ⟨v, rfl, hc.1, hc.2.1, hc.2.2⟩)] at h
    exact branchWrel_spec entries wrelOp hfind (some v) st st' h

set_option maxRecDepth 100000 in
/-- C5: for every branch mnemonic and every operand-expression outcome, a
successful encode takes the 2-byte REL form exactly when the expression is
resolved, the displacement from PC+2 fits in i8, and the mnemonic is not BSR
(emitting the REL opcode and the displacement byte on pass two); in every
other case (a displacement outside -128..127, an unresolved expression, or
BSR) it takes the 3-byte WREL form. -/
theorem c5_branch_sizing (mn : String) (hmn : mn ∈ branchMnemonics)
    (st : Asm) (e : Option Int) (st' : Asm)
    (h : branchOperand mn (opsEntries mn) e st = some (.ok st')) :
    (∀ v, e = some v → -128 ≤ v - (Int.ofNat st.pcGet + 2) →
      v - (Int.ofNat st.pcGet + 2) ≤ 127 → eqIC mn "BSR" = false →
      st'.pcGet = (st.pcGet + 2) % 65536 ∧
      st'.out = st.out ++ (if st.emit then
        [modeOpcode (opsEntries mn) REL,
         ((v - (Int.ofNat st.pcGet + 2)) % 256).toNat] else [])) ∧
    (¬ relSelected mn e st.pcGet →
      st'.pcGet = (st.pcGet + 3) % 65536 ∧
      ∃ tail, st'.out = st.out ++ (if st.emit then
          modeOpcode (opsEntries mn) WREL :: tail else []) ∧
        (st.emit = true → tail.length = 2)) := by
  fin_cases hmn <;>
    refine ⟨fun v hv hlo hhi hB => ?_,
            fun hn => branchOperand_long _ _ _ (by decide) _ st st' hn h⟩ <;>
    first
      | exact absurd hB (by decide)
      | (subst hv; exact branchRel_spec _ _ _ (by decide) v st st' hB hlo hhi h)

set_option maxRecDepth 100000 in
/-- C5 (witness): BRU with a resolved target 10 from PC 0 (displacement 8)
on pass one encodes as the 2-byte REL form. -/
theorem c5_branch_sizing_witness :
    (∀ v, (some (10 : Int)) = some v →
      -128 ≤ v - (Int.ofNat (Asm.new []).pcGet + 2) →
      v - (Int.ofNat (Asm.new []).pcGet + 2) ≤ 127 → eqIC "BRU" "BSR" = false →
      ({ Asm.new [] with pc := 2 } : Asm).pcGet = ((Asm.new []).pcGet + 2) % 65536 ∧
      ({ Asm.new [] with pc := 2 } : Asm).out = (Asm.new []).out ++
        (if (Asm.new []).emit then
          [modeOpcode (opsEntries "BRU") REL,
           ((v - (Int.ofNat (Asm.new []).pcGet + 2)) % 256).toNat] else [])) ∧
    (¬ relSelected "BRU" (some 10) (Asm.new []).pcGet →
      ({ Asm.new [] with pc := 2 } : Asm).pcGet = ((Asm.new []).pcGet + 3) % 65536 ∧
      ∃ tail, ({ Asm.new [] with pc := 2 } : Asm).out = (Asm.new []).out ++
          (if (Asm.new []).emit then
            modeOpcode (opsEntries "BRU") WREL :: tail else []) ∧
        ((Asm.new []).emit = true → tail.length = 2)) :=
  c5_branch_sizing "BRU" (by decide) (Asm.new []) (some 10)
    { Asm.new [] with pc := 2 } (by rfl)

end Possum2
